import Mathlib

/- Shallow embedding of camera-roll-uniformizer (src/run.py) and proofs about it.

   Conventions of the embedding:
   - Python floats are modelled by rationals; every arithmetic operation the source
     performs on GPS values (x + y / 60 + z / 3600, multiplication by -1) is exact in
     IEEE doubles for the sign and the concrete values the claims mention, so the
     rational model is faithful for the proved statements.
   - Python exceptions are modelled by an explicit error type returned in Except.
   - The filesystem is modelled by the list of existing paths, and every mutating
     os call is additionally recorded in an effect trace.  Read-only probes
     (exif parse, ffprobe) are recorded as non-mutating effects. -/

namespace CameraRoll

/-- run.py line 15. -/
def MAX_CONFLICT_SUFFIXING : Nat := 10

/-- run.py line 17: a one-element tuple. -/
def REMOVE_EXTENSIONS : List String := [".aae"]

/-- run.py line 19 binds EXIF_IMAGE_EXTENSIONS to the plain string ".jpg"
(there is no trailing comma, so it is not a tuple); consequently the test
low_extension in EXIF_IMAGE_EXTENSIONS is a substring test on ".jpg". -/
def EXIF_IMAGE_EXTENSIONS : String := ".jpg"

/-- run.py line 21. -/
def VIDEO_IMAGE_EXT : List String := [".mov", ".mp4"]

/-- run.py line 23. -/
def TRANSFORM_IMAGE_EXTENSIONS : List String := [".jpeg", ".png", ".heic"]

/-- run.py line 24. -/
def TARGET_IMAGEMAGICK_FORMAT : String := "jpeg"

/-- run.py line 25. -/
def TARGET_IMAGEMAGICK_EXTENSION : String := ".jpg"

/-- run.py line 27. -/
def TRACE_GPX : String := "trace.gpx"

/-- os.path.join as used by run.py: both arguments are relative posix
components, so the result is the separator-joined concatenation. -/
def joinPath (a b : String) : String := a ++ "/" ++ b

/-- os.path.basename: the part after the last separator. -/
def basename (s : String) : String :=
  String.mk ((s.toList.reverse.takeWhile (fun c => c ≠ '/')).reverse)

/-- os.path.dirname: the part before the last separator (empty when there is none). -/
def dirname (s : String) : String :=
  let b := (s.toList.reverse.takeWhile (fun c => c ≠ '/')).reverse
  if b.length = s.toList.length then ""
  else String.mk (s.toList.take (s.toList.length - b.length - 1))

/-- os.path.splitext: splits at the last dot of the basename, except that a
basename consisting only of leading dots before that dot has no extension. -/
def splitext (p : String) : String × String :=
  let cs := p.toList
  let base := (cs.reverse.takeWhile (fun c => c ≠ '/')).reverse
  let root := cs.take (cs.length - base.length)
  let afterDot := (base.reverse.takeWhile (fun c => c ≠ '.')).reverse
  if afterDot.length = base.length then (p, "")
  else
    let stem := base.take (base.length - afterDot.length - 1)
    if stem.all (fun c => c = '.') then (p, "")
    else (String.mk (root ++ stem), String.mk ('.' :: afterDot))

/-- Does the second list start with the first? -/
def listStartsWith : List Char → List Char → Bool
  | [], _ => true
  | _ :: _, [] => false
  | a :: as, b :: bs => a = b && listStartsWith as bs

/-- Does the list contain the first list as a contiguous segment? -/
def listContainsSeg (sub : List Char) : List Char → Bool
  | [] => listStartsWith sub []
  | c :: rest => listStartsWith sub (c :: rest) || listContainsSeg sub rest

/-- The python substring test sub in s (used because EXIF_IMAGE_EXTENSIONS is a
string, see above). -/
def pyInStr (sub s : String) : Bool := listContainsSeg sub.toList s.toList

/-- str.lower on the extensions the source compares (all ASCII): character by
character lowering. -/
def pyLower (s : String) : String := String.mk (s.toList.map Char.toLower)

/-- Two-digit zero-padded decimal rendering, as strftime does for the
sub-year fields the source formats. -/
def pad2 (n : Nat) : List Char := [Char.ofNat (48 + n / 10), Char.ofNat (48 + n % 10)]

/-- Four-digit zero-padded decimal rendering for the year field. -/
def pad4 (n : Nat) : List Char :=
  [Char.ofNat (48 + n / 1000), Char.ofNat (48 + n / 100 % 10),
   Char.ofNat (48 + n / 10 % 10), Char.ofNat (48 + n % 10)]

/-- Numeric value of a two-digit field. -/
def d2 (a b : Char) : Nat := 10 * (a.toNat - 48) + (b.toNat - 48)

/-- Numeric value of a four-digit field. -/
def d4 (a b c d : Char) : Nat :=
  1000 * (a.toNat - 48) + 100 * (b.toNat - 48) + 10 * (c.toNat - 48) + (d.toNat - 48)

/-- The naive datetime values the source manipulates (microseconds are parsed
and validated by the ffmpeg pattern but never used downstream, so they are not
carried). -/
structure PyDateTime where
  year : Nat
  month : Nat
  day : Nat
  hour : Nat
  minute : Nat
  second : Nat
deriving DecidableEq, Repr

def isLeapYear (y : Nat) : Bool := (y % 4 = 0 ∧ y % 100 ≠ 0) ∨ y % 400 = 0

def daysInMonth (y m : Nat) : Nat :=
  if m = 2 then (if isLeapYear y then 29 else 28)
  else if m = 4 ∨ m = 6 ∨ m = 9 ∨ m = 11 then 30
  else 31

/-- Range validation performed by the datetime constructor inside strptime. -/
def validDateTime (y mo d h mi s : Nat) : Prop :=
  1 ≤ y ∧ y ≤ 9999 ∧ 1 ≤ mo ∧ mo ≤ 12 ∧ 1 ≤ d ∧ d ≤ daysInMonth y mo
    ∧ h ≤ 23 ∧ mi ≤ 59 ∧ s ≤ 59

instance (y mo d h mi s : Nat) : Decidable (validDateTime y mo d h mi s) := by
  unfold validDateTime; infer_instance

/-- datetime.strptime with format %Y:%m:%d %H:%M:%S on the fixed-width EXIF
datetime string (run.py line 124); none models the ValueError CPython raises on
a string of any other shape or with out-of-range fields. -/
def exifStrptime (s : String) : Option PyDateTime :=
  match s.toList with
  | [y1, y2, y3, y4, c1, m1, m2, c2, dd1, dd2, sp, h1, h2, c3, n1, n2, c4, s1, s2] =>
    if c1 = ':' ∧ c2 = ':' ∧ sp = ' ' ∧ c3 = ':' ∧ c4 = ':'
        ∧ ([y1, y2, y3, y4, m1, m2, dd1, dd2, h1, h2, n1, n2, s1, s2].all Char.isDigit) then
      let y := d4 y1 y2 y3 y4
      let mo := d2 m1 m2
      let d := d2 dd1 dd2
      let h := d2 h1 h2
      let mi := d2 n1 n2
      let sec := d2 s1 s2
      if validDateTime y mo d h mi sec then some ⟨y, mo, d, h, mi, sec⟩ else none
    else none
  | _ => none

/-- datetime.strptime with format %Y-%m-%dT%H:%M:%S.%fZ on the fixed-width
ffmpeg creation_time string (run.py line 147).  The six microsecond digits are
validated and dropped, since nothing downstream reads them. -/
def ffmpegStrptime (s : String) : Option PyDateTime :=
  match s.toList with
  | [y1, y2, y3, y4, c1, m1, m2, c2, dd1, dd2, tT, h1, h2, c3, n1, n2, c4, s1, s2,
     dot, f1, f2, f3, f4, f5, f6, zZ] =>
    if c1 = '-' ∧ c2 = '-' ∧ tT = 'T' ∧ c3 = ':' ∧ c4 = ':' ∧ dot = '.' ∧ zZ = 'Z'
        ∧ ([y1, y2, y3, y4, m1, m2, dd1, dd2, h1, h2, n1, n2, s1, s2,
            f1, f2, f3, f4, f5, f6].all Char.isDigit) then
      let y := d4 y1 y2 y3 y4
      let mo := d2 m1 m2
      let d := d2 dd1 dd2
      let h := d2 h1 h2
      let mi := d2 n1 n2
      let sec := d2 s1 s2
      if validDateTime y mo d h mi sec then some ⟨y, mo, d, h, mi, sec⟩ else none
    else none
  | _ => none

/-- dt.strftime of %Y-%m-%d (run.py lines 132 and 148). -/
def dateIso (dt : PyDateTime) : String :=
  String.mk (pad4 dt.year ++ ['-'] ++ pad2 dt.month ++ ['-'] ++ pad2 dt.day)

/-- dt.strftime of %H-%M-%S (run.py lines 133 and 149). -/
def timeIsoDashes (dt : PyDateTime) : String :=
  String.mk (pad2 dt.hour ++ ['-'] ++ pad2 dt.minute ++ ['-'] ++ pad2 dt.second)

/-- dt.strftime of %Y-%m-%dT%H:%M:%SZ (run.py line 104): the literal Z
designator is appended by the format string itself, with no conversion of dt. -/
def isoZTimestamp (dt : PyDateTime) : String :=
  String.mk (pad4 dt.year ++ ['-'] ++ pad2 dt.month ++ ['-'] ++ pad2 dt.day ++ ['T']
    ++ pad2 dt.hour ++ [':'] ++ pad2 dt.minute ++ [':'] ++ pad2 dt.second ++ ['Z'])

/-- The exception values run.py can see: the MyError hierarchy of lines 30-55
plus the builtin exceptions its library calls raise.  isSkipFileError mirrors
the python class hierarchy: every MyError subclass except MyError itself
derives SkipFileError. -/
inductive PyExc where
  | targetExists (msg : String)
  | ffmpegErr (msg : String)
  | exifErr (msg : String)
  | exifDateTime (msg : String)
  | exifGpsData (msg : String)
  | valueError (msg : String)
  | fileNotFound (msg : String)
deriving DecidableEq, Repr

/-- Which exceptions the except SkipFileError clause of try_process_file
(run.py line 214) catches. -/
def PyExc.isSkipFileError : PyExc → Bool
  | .targetExists _ => true
  | .ffmpegErr _ => true
  | .exifErr _ => true
  | .exifDateTime _ => true
  | .exifGpsData _ => true
  | .valueError _ => false
  | .fileNotFound _ => false

/-- exif.GpsAltitudeRef.ABOVE_SEA_LEVEL. -/
def ABOVE_SEA_LEVEL : Nat := 0

/-- exif.GpsAltitudeRef.BELOW_SEA_LEVEL. -/
def BELOW_SEA_LEVEL : Nat := 1

/-- The GpsInfo dataclass (run.py lines 58-63). -/
structure GpsInfo where
  timestamp : String
  latitude : Rat
  longitude : Rat
  altitude : Rat
deriving DecidableEq, Repr

/-- The fields run.py reads from an exif.Image: has_exif, the datetime
attribute (none models the AttributeError of a missing attribute), and the six
raw GPS sub-fields accessed through image.get (none when absent). -/
structure ExifImage where
  has_exif : Bool
  datetime : Option String
  gps_latitude : Option (List Rat)
  gps_latitude_ref : Option String
  gps_longitude : Option (List Rat)
  gps_longitude_ref : Option String
  gps_altitude : Option Rat
  gps_altitude_ref : Option Nat
deriving DecidableEq, Repr

/-- The single field run.py reads from the ffmpeg.probe result:
format / tags / creation_time, with none modelling the KeyError of a missing
nesting level. -/
structure FfmpegInfo where
  creation_time : Option String
deriving DecidableEq, Repr

/-- exif_build_gps_coordinates (run.py lines 84-107), with the same check
order and messages. -/
def exif_build_gps_coordinates (image : ExifImage) (dt : PyDateTime) :
    Except PyExc GpsInfo :=
  let lat := image.gps_latitude
  let lat_ref := image.gps_latitude_ref
  let lon := image.gps_longitude
  let lon_ref := image.gps_longitude_ref
  let alt := image.gps_altitude
  let alt_ref := image.gps_altitude_ref
  if alt = none ∨ alt_ref = none then
    .error (.exifGpsData "Missing GPS altitude in EXIF data")
  else if lat = none ∨ lat_ref = none then
    .error (.exifGpsData "Missing GPS latitude in EXIF data")
  else if lon = none ∨ lon_ref = none then
    .error (.exifGpsData "Missing GPS longitude in EXIF data")
  else if ¬ (alt_ref = some ABOVE_SEA_LEVEL ∨ alt_ref = some BELOW_SEA_LEVEL) then
    .error (.exifGpsData "Invalid GPS altitude in EXIF data")
  else if ¬ (lat_ref = some "N" ∨ lat_ref = some "S") ∨ (lat.getD []).length ≠ 3 then
    .error (.exifGpsData "Invalid GPS latitude in EXIF data")
  else if ¬ (lon_ref = some "E" ∨ lon_ref = some "W") ∨ (lon.getD []).length ≠ 3 then
    .error (.exifGpsData "Invalid GPS longitude in EXIF data")
  else
    let latl := lat.getD []
    let lonl := lon.getD []
    .ok { timestamp := isoZTimestamp dt
          latitude := (latl.getD 0 0 + latl.getD 1 0 / 60 + latl.getD 2 0 / 3600)
            * (if lat_ref = some "S" then -1 else 1)
          longitude := (lonl.getD 0 0 + lonl.getD 1 0 / 60 + lonl.getD 2 0 / 3600)
            * (if lon_ref = some "W" then -1 else 1)
          altitude := alt.getD 0 * (if alt_ref = some BELOW_SEA_LEVEL then -1 else 1) }

/-- exif_get_information (run.py lines 110-135).  Returns the (name, date_iso,
gps_coord) triple together with the warning messages logged while building it.
Only ExifGpsDataError is caught around exif_build_gps_coordinates, exactly as
in the source. -/
def exif_get_information (path : String) (image : ExifImage) :
    Except PyExc (String × String × Option GpsInfo × List String) :=
  if ¬ image.has_exif then .error (.exifErr (path ++ " has no exif information"))
  else
    match image.datetime with
    | none => .error (.exifDateTime (path ++ " has no datetime information"))
    | some dtStr =>
      match exifStrptime dtStr with
      | none => .error (.valueError ("time data does not match format %Y:%m:%d %H:%M:%S: " ++ dtStr))
      | some dt =>
        let date_iso := dateIso dt
        let time_iso := timeIsoDashes dt
        let name := date_iso ++ "_" ++ time_iso ++ "_LOCAL"
        match exif_build_gps_coordinates image dt with
        | .ok g => .ok (name, date_iso, some g, [])
        | .error (.exifGpsData m) =>
            .ok (name, date_iso, none, ["Cannot use " ++ path ++ " GPS coordinates: " ++ m])
        | .error e => .error e

/-- ffmpeg_get_information (run.py lines 138-153).  The components are derived
from the parsed creation_time value itself; the name carries the literal _UTC
tag and gps_coord is always none (extraction from video is a TODO in the
source). -/
def ffmpeg_get_information (path : String) (infos : FfmpegInfo) :
    Except PyExc (String × String × Option GpsInfo) :=
  match infos.creation_time with
  | none => .error (.ffmpegErr (path ++ " has no ffmpeg creation time"))
  | some ct =>
    match ffmpegStrptime ct with
    | none => .error (.valueError ("time data does not match format %Y-%m-%dT%H:%M:%S.%fZ: " ++ ct))
    | some dt =>
      let date_iso := dateIso dt
      let time_iso := timeIsoDashes dt
      let name := date_iso ++ "_" ++ time_iso ++ "_UTC"
      .ok (name, date_iso, none)

/-- The filesystem side effects run.py performs.  The first five are the
mutating os and wand calls; readExif and ffprobe record the read-only
metadata probes so that a dry run can be compared with a real one. -/
inductive FsEff where
  | removeFile (p : String)
  | convertImage (src dst : String)
  | mkdir (p : String)
  | rename (src dst : String)
  | writeTrace (p : String)
  | readExif (p : String)
  | ffprobe (p : String)
deriving DecidableEq, Repr

/-- Whether an effect mutates the filesystem. -/
def FsEff.isMutation : FsEff → Bool
  | .readExif _ => false
  | .ffprobe _ => false
  | _ => true

/-- The filesystem state visible to run.py: the set of existing paths,
kept as a list. -/
structure World where
  existing : List String
deriving DecidableEq, Repr

/-- os.path.exists. -/
def pathExists (w : World) (p : String) : Bool := decide (p ∈ w.existing)

/-- delete_file (run.py lines 66-69). -/
def delete_file (path : String) (dry_run : Bool) (w : World) : World × List FsEff :=
  if dry_run then (w, []) else (⟨w.existing.erase path⟩, [.removeFile path])

/-- wand_transform_image (run.py lines 72-81): raises when the target exists,
otherwise converts (creating new_path, then deleting the original) unless
dry_run, and returns the original path under dry_run and the new path
otherwise. -/
def wand_transform_image (path : String) (_target_format : String) (new_path : String)
    (dry_run : Bool) (w : World) : Except PyExc (String × World × List FsEff) :=
  if pathExists w new_path then .error (.targetExists (new_path ++ " already exists"))
  else if dry_run then .ok (path, w, [])
  else
    let w1 : World := ⟨new_path :: w.existing⟩
    let (w2, e2) := delete_file path false w1
    .ok (new_path, w2, .convertImage path new_path :: e2)

/-- create_directory (run.py lines 156-163): os.mkdir with FileExistsError
swallowed, skipped entirely under dry_run. -/
def create_directory (path : String) (dry_run : Bool) (w : World) : World × List FsEff :=
  if dry_run then (w, [])
  else if pathExists w path then (w, [])
  else (⟨path :: w.existing⟩, [.mkdir path])

/-- rename_file (run.py lines 166-169). -/
def rename_file (src_path dst_path : String) (dry_run : Bool) (w : World) :
    World × List FsEff :=
  if dry_run then (w, [])
  else (⟨dst_path :: w.existing.erase src_path⟩, [.rename src_path dst_path])

/-- The while loop of rename_without_overwrite (run.py lines 174-182): the
candidate built from new_name is returned as soon as it does not exist;
otherwise one underscore is appended and the loop retries, raising
TargetExistsError once the counter i exceeds MAX_CONFLICT_SUFFIXING.  The
source counts i upward from 0 and fails on the retry that would make
i = MAX_CONFLICT_SUFFIXING + 1; here the equivalent remaining retry budget
MAX_CONFLICT_SUFFIXING - i counts downward so the recursion is structural. -/
def findTarget (w : World) (out_directory extension : String) :
    String → Nat → Except PyExc String
  | new_name, remaining =>
    let new_path := joinPath out_directory (new_name ++ extension)
    if ¬ pathExists w new_path then .ok new_path
    else
      match remaining with
      | 0 => .error (.targetExists (new_path ++ " still exists, not trying further prefixing"))
      | r + 1 => findTarget w out_directory extension (new_name ++ "_") r

/-- rename_without_overwrite (run.py lines 172-183). -/
def rename_without_overwrite (path new_name out_directory extension : String)
    (dry_run : Bool) (w : World) : Except PyExc Unit × World × List FsEff :=
  let (w1, e1) := create_directory out_directory dry_run w
  match findTarget w1 out_directory extension new_name MAX_CONFLICT_SUFFIXING with
  | .error e => (.error e, w1, e1)
  | .ok new_path =>
    let (w2, e2) := rename_file path new_path dry_run w1
    (.ok (), w2, e1 ++ e2)

/-- What a file looks like to the metadata readers: its EXIF view (consulted
when the exif branch opens it) and its container-probe view (consulted by the
video branch).  A converted image keeps its EXIF view. -/
structure FileMeta where
  exifData : ExifImage
  ffData : FfmpegInfo
deriving Repr

/-- process_media (run.py lines 186-208): classification by lowercased
extension, optional delete, optional conversion (recomputing name and
extension from the returned path), then the exif and video branches, each
extracting metadata and relocating.  The result carries the python return
value (or the escaping exception), the world, the effect trace, and the
warning messages logged. -/
def process_media (path : String) (meta : FileMeta) (dry_run : Bool) (w : World) :
    Except PyExc (Option GpsInfo) × World × List FsEff × List String :=
  let ne := splitext (basename path)
  let name := ne.1
  let extension := ne.2
  let low_extension := pyLower extension
  if low_extension ∈ REMOVE_EXTENSIONS then
    let (w1, e1) := delete_file path dry_run w
    (.ok none, w1, e1, [])
  else
    match (if low_extension ∈ TRANSFORM_IMAGE_EXTENSIONS then
             let directory := dirname path
             let new_path := joinPath directory (name ++ TARGET_IMAGEMAGICK_EXTENSION)
             wand_transform_image path TARGET_IMAGEMAGICK_FORMAT new_path dry_run w
           else .ok (path, w, [])) with
    | .error e => (.error e, w, [], [])
    | .ok (path2, w2, e2) =>
      let ne2 := splitext (basename path2)
      let low2 := pyLower ne2.2
      let afterExif : Except PyExc (Option GpsInfo) × World × List FsEff × List String :=
        if pyInStr low2 EXIF_IMAGE_EXTENSIONS then
          match exif_get_information path2 meta.exifData with
          | .error e => (.error e, w2, [.readExif path2], [])
          | .ok (new_name, out_directory, gps, warns) =>
            match rename_without_overwrite path2 new_name out_directory low2 dry_run w2 with
            | (.error e, w3, e3) => (.error e, w3, .readExif path2 :: e3, warns)
            | (.ok _, w3, e3) => (.ok gps, w3, .readExif path2 :: e3, warns)
        else (.ok none, w2, [], [])
      match afterExif with
      | (.error e, w3, e3, warns) => (.error e, w3, e2 ++ e3, warns)
      | (.ok gps1, w3, e3, warns) =>
        if low2 ∈ VIDEO_IMAGE_EXT then
          match ffmpeg_get_information path2 meta.ffData with
          | .error e => (.error e, w3, e2 ++ e3 ++ [.ffprobe path2], warns)
          | .ok (new_name, out_directory, gps) =>
            match rename_without_overwrite path2 new_name out_directory low2 dry_run w3 with
            | (.error e, w4, e4) => (.error e, w4, e2 ++ e3 ++ .ffprobe path2 :: e4, warns)
            | (.ok _, w4, e4) => (.ok gps, w4, e2 ++ e3 ++ .ffprobe path2 :: e4, warns)
        else (.ok gps1, w3, e2 ++ e3, warns)

/-- The message text of an exception, as str(e) renders it. -/
def PyExc.msg : PyExc → String
  | .targetExists m => m
  | .ffmpegErr m => m
  | .exifErr m => m
  | .exifDateTime m => m
  | .exifGpsData m => m
  | .valueError m => m
  | .fileNotFound m => m

/-- try_process_file (run.py lines 211-216): the except clause names
SkipFileError, so exactly the SkipFileError subclasses are converted to a
logged warning and a None result; every other exception keeps propagating. -/
def try_process_file (path : String) (meta : FileMeta) (dry_run : Bool) (w : World) :
    Except PyExc (Option GpsInfo) × World × List FsEff × List String :=
  match process_media path meta dry_run w with
  | (.ok g, w1, e1, warns) => (.ok g, w1, e1, warns)
  | (.error e, w1, e1, warns) =>
    if e.isSkipFileError then (.ok none, w1, e1, warns ++ ["Skipping file: " ++ e.msg])
    else (.error e, w1, e1, warns)

/-- The sequential semantics of pulling every queued future result in run
(run.py line 277): each file is processed by try_process_file; the first
exception that escapes it aborts the collection (future.result re-raises it
in the parent). -/
def processFiles (dry_run : Bool) :
    List (String × FileMeta) → World →
    Except PyExc (List (Option GpsInfo)) × World × List FsEff × List String
  | [], w => (.ok [], w, [], [])
  | (p, m) :: rest, w =>
    match try_process_file p m dry_run w with
    | (.ok g, w1, e1, warns1) =>
      match processFiles dry_run rest w1 with
      | (.ok gs, w2, e2, warns2) => (.ok (g :: gs), w2, e1 ++ e2, warns1 ++ warns2)
      | (.error e, w2, e2, warns2) => (.error e, w2, e1 ++ e2, warns1 ++ warns2)
    | (.error e, w1, e1, warns1) => (.error e, w1, e1, warns1)

/-- Lexicographic less-or-equal on code point sequences: the order CPython
uses to compare strings. -/
def charListLe : List Char → List Char → Bool
  | [], _ => true
  | _ :: _, [] => false
  | a :: as, b :: bs =>
    if a.toNat < b.toNat then true
    else if b.toNat < a.toNat then false
    else charListLe as bs

/-- CPython string comparison a <= b. -/
def pyStrLe (a b : String) : Bool := charListLe a.toList b.toList

/-- The timestamp comparison used as sort key. -/
def tsLe (a b : GpsInfo) : Prop := pyStrLe a.timestamp b.timestamp = true

instance (a b : GpsInfo) : Decidable (tsLe a b) := by unfold tsLe; infer_instance

/-- CPython sorted with key d.timestamp: a stable ascending sort by the
timestamp string; insertion sort on the timestamp order is such a sort. -/
def pySortedByTimestamp (l : List GpsInfo) : List GpsInfo :=
  List.insertionSort tsLe l

/-- The trkpt element written for one entry (run.py lines 263-266),
whitespace normalized. -/
def trkpt (e : GpsInfo) : String :=
  "<trkpt lat=\"" ++ toString e.latitude ++ "\" lon=\"" ++ toString e.longitude
    ++ "\">\n<ele>" ++ toString e.altitude ++ "</ele>\n<time>" ++ e.timestamp
    ++ "</time>\n</trkpt>\n"

def gpxHeader : String :=
  "<?xml version=\"1.0\" encoding=\"utf-8\"?>\n<gpx version=\"1.0\">\n<trk>\n<number>1</number>\n<trkseg>\n"

def gpxFooter : String := "</trkseg>\n</trk>\n</gpx>\n"

/-- write_gpx_trace (run.py lines 249-271): sorts the entries ascending by
timestamp, serializes them in that order, and writes the document to
TRACE_GPX unconditionally (the function takes no dry_run flag). -/
def write_gpx_trace (entries : List GpsInfo) (w : World) :
    World × List FsEff × String :=
  let sortedEntries := pySortedByTimestamp entries
  let doc := gpxHeader ++ String.join (sortedEntries.map trkpt) ++ gpxFooter
  (⟨if TRACE_GPX ∈ w.existing then w.existing else TRACE_GPX :: w.existing⟩,
    [.writeTrace TRACE_GPX], doc)

/-- run (run.py lines 274-280): collect the per-file results, filter out the
None ones, sort by timestamp and write the trace.  The dry_run flag is passed
to the per-file processing but not consulted before write_gpx_trace. -/
def run (files : List (String × FileMeta)) (dry_run : Bool) (w : World) :
    Except PyExc Unit × World × List FsEff × List String × String :=
  match processFiles dry_run files w with
  | (.error e, w1, e1, warns) => (.error e, w1, e1, warns, "")
  | (.ok gs, w1, e1, warns) =>
    let results := pySortedByTimestamp (gs.filterMap id)
    let (w2, e2, doc) := write_gpx_trace results w1
    (.ok (), w2, e1 ++ e2, warns, doc)

/-- A directory tree: its own name, the plain files directly in it, and its
subdirectories.  Filesystem trees are finite and acyclic, which this inductive
captures. -/
inductive FsTree where
  | dir (dname : String) (files : List String) (subs : List FsTree)

def FsTree.name : FsTree → String
  | .dir n _ _ => n

/-- os.walk(top), topdown: yields (top, dirnames, filenames) and then
recursively walks each subdirectory. -/
def osWalk (p : String) (t : FsTree) : List (String × List FsTree × List String) :=
  match t with
  | .dir _ files subs =>
    (p, subs, files) :: subs.attach.flatMap (fun s => osWalk (joinPath p s.1.name) s.1)
termination_by sizeOf t
decreasing_by
  have := List.sizeOf_lt_of_mem s.2
  simp only [FsTree.dir.sizeOf_spec]
  omega

/-- process_directory (run.py lines 224-232): iterates os.walk(path) and, for
every yielded triple, queues each file and recurses into each directory.
Note that os.walk is itself already recursive. -/
def process_directory (p : String) (t : FsTree) : List String :=
  (osWalk p t).attach.flatMap (fun e =>
    e.1.2.2.map (fun f => joinPath e.1.1 f)
      ++ e.1.2.1.attach.flatMap (fun d => process_directory (joinPath e.1.1 d.1.name) d.1))
termination_by sizeOf t
decreasing_by
  have key : ∀ (N : Nat) (t : FsTree), sizeOf t ≤ N → ∀ (q root : String)
      (dirs : List FsTree) (files : List String), (root, dirs, files) ∈ osWalk q t →
      ∀ x ∈ dirs, sizeOf x < sizeOf t := by
    intro N
    induction N with
    | zero =>
      intro t ht
      cases t with
      | dir n fs subs => simp only [FsTree.dir.sizeOf_spec] at ht; omega
    | succ N ih =>
      intro t ht q root dirs files he x hx
      cases t with
      | dir n fs subs =>
        rw [osWalk] at he
        rcases List.mem_cons.mp he with h | h
        · have hdirs : dirs = subs := congrArg (fun z => z.2.1) h
          subst hdirs
          have := List.sizeOf_lt_of_mem hx
          simp only [FsTree.dir.sizeOf_spec]
          omega
        · rcases List.mem_flatMap.mp h with ⟨s, _hs, he2⟩
          have hsub : s.1 ∈ subs := s.2
          have hlt : sizeOf s.1 < sizeOf (FsTree.dir n fs subs) := by
            have := List.sizeOf_lt_of_mem hsub
            simp only [FsTree.dir.sizeOf_spec]
            omega
          have := ih s.1 (by omega) _ root dirs files he2 x hx
          omega
  exact key (sizeOf t) t le_rfl p e.1.1 e.1.2.1 e.1.2.2 e.2 d.1 d.2

/-- queue_file (run.py lines 219-221): one submission of the path to the pool. -/
def queue_file (path : String) : List String := [path]

/-- A user-supplied source path: either a plain file or a directory together
with the tree rooted at it. -/
inductive SourceArg where
  | plainFile (path : String)
  | directory (path : String) (tree : FsTree)

/-- process_source (run.py lines 235-240): os.path.isdir dispatch. -/
def process_source : SourceArg → List String
  | .plainFile p => queue_file p
  | .directory p t => process_directory p t

/-- Modelled from the spec: the configured local time zone (spec sections 4.1
and 9 describe a global fixed local-time-zone constant, which is absent from
src/run.py) applied to a UTC datetime as a fixed offset in minutes.  Real-zone
offsets are smaller than a day, so at most one calendar day boundary is
crossed; nextDate and prevDate implement that crossing. -/
def nextDate (y m d : Nat) : Nat × Nat × Nat :=
  if d < daysInMonth y m then (y, m, d + 1)
  else if m < 12 then (y, m + 1, 1)
  else (y + 1, 1, 1)

def prevDate (y m d : Nat) : Nat × Nat × Nat :=
  if 2 ≤ d then (y, m, d - 1)
  else if 2 ≤ m then (y, m - 1, daysInMonth y (m - 1))
  else (y - 1, 12, 31)

/-- Modelled from the spec: conversion of a parsed UTC timestamp to the
configured local time zone, the conversion spec section 4.1 asserts for the
video strategy but which src/run.py nowhere performs. -/
def localizeUtc (offsetMin : Int) (dt : PyDateTime) : PyDateTime :=
  let tot : Int := ((dt.hour * 60 + dt.minute : Nat) : Int) + offsetMin
  if 0 ≤ tot ∧ tot < 1440 then
    { dt with hour := tot.toNat / 60, minute := tot.toNat % 60 }
  else if tot < 0 then
    let t2 := (tot + 1440).toNat
    let ymd := prevDate dt.year dt.month dt.day
    { year := ymd.1, month := ymd.2.1, day := ymd.2.2,
      hour := t2 / 60, minute := t2 % 60, second := dt.second }
  else
    let t2 := (tot - 1440).toNat
    let ymd := nextDate dt.year dt.month dt.day
    { year := ymd.1, month := ymd.2.1, day := ymd.2.2,
      hour := t2 / 60, minute := t2 % 60, second := dt.second }

/-- k collision suffix markers, grown one at a time as the loop does. -/
def underscores : Nat → String
  | 0 => ""
  | k + 1 => underscores k ++ "_"

/-- The destination candidate that carries k suffix markers. -/
def relocCand (out_directory new_name extension : String) (k : Nat) : String :=
  joinPath out_directory (new_name ++ underscores k ++ extension)

/-- Sequential relocation of several source files to the same derived
destination directory, base name and extension (the colliding-captures
situation of the spec), with dry_run false; returns each call's outcome and
effect trace together with the final world. -/
def relocateSeq (new_name out_directory extension : String) :
    List String → World → List (Except PyExc Unit × List FsEff) × World
  | [], w => ([], w)
  | s :: rest, w =>
    let r := rename_without_overwrite s new_name out_directory extension false w
    let (rs, w2) := relocateSeq new_name out_directory extension rest r.2.1
    ((r.1, r.2.2) :: rs, w2)

/-- Twelve distinct source files all deriving the same destination name. -/
def collideBatch : List String :=
  ["s0", "s1", "s2", "s3", "s4", "s5", "s6", "s7", "s8", "s9", "s10", "s11"]

/-- A still image whose EXIF datetime string does not match the strptime
pattern: processing it raises ValueError (not a MyError subclass). -/
def badDtImg : ExifImage :=
  { has_exif := true, datetime := some "not a datetime",
    gps_latitude := none, gps_latitude_ref := none,
    gps_longitude := none, gps_longitude_ref := none,
    gps_altitude := none, gps_altitude_ref := none }

def noFf : FfmpegInfo := { creation_time := none }

def badDtMeta : FileMeta := { exifData := badDtImg, ffData := noFf }

/-- A fully valid EXIF image: datetime 2024:05:05 18:19:59, latitude 10 30 0 N,
longitude 1 2 3 E, altitude 5 above sea level. -/
def validImg : ExifImage :=
  { has_exif := true, datetime := some "2024:05:05 18:19:59",
    gps_latitude := some [10, 30, 0], gps_latitude_ref := some "N",
    gps_longitude := some [1, 2, 3], gps_longitude_ref := some "E",
    gps_altitude := some 5, gps_altitude_ref := some ABOVE_SEA_LEVEL }

def validMeta : FileMeta := { exifData := validImg, ffData := noFf }

/-- validImg with the altitude sub-field missing. -/
def noAltImg : ExifImage := { validImg with gps_altitude := none }

def noAltMeta : FileMeta := { exifData := noAltImg, ffData := noFf }

/-- validImg with latitude recorded as 0 deg 0 min 0 sec, reference S. -/
def zeroSImg : ExifImage :=
  { validImg with gps_latitude := some [0, 0, 0], gps_latitude_ref := some "S" }

/-- Decidable equality of Except values, used to evaluate results. -/
instance {ε α : Type} [DecidableEq ε] [DecidableEq α] : DecidableEq (Except ε α) := fun x y =>
  match x, y with
  | .ok a, .ok b => if h : a = b then isTrue (by rw [h]) else isFalse (by simp [h])
  | .error a, .error b => if h : a = b then isTrue (by rw [h]) else isFalse (by simp [h])
  | .ok _, .error _ => isFalse (by simp)
  | .error _, .ok _ => isFalse (by simp)

/-- validImg with every reference flag flipped to the negative hemisphere:
latitude 10 30 0 S, longitude 1 2 3 W, altitude 5 below sea level. -/
def negImg : ExifImage :=
  { has_exif := true, datetime := some "2024:05:05 18:19:59",
    gps_latitude := some [10, 30, 0], gps_latitude_ref := some "S",
    gps_longitude := some [1, 2, 3], gps_longitude_ref := some "W",
    gps_altitude := some 5, gps_altitude_ref := some BELOW_SEA_LEVEL }

/-- The fix negImg produces. -/
def negFix : GpsInfo :=
  { timestamp := "2024-05-05T18:19:59Z", latitude := -(21 / 2),
    longitude := -(1 + 2 / 60 + 3 / 3600), altitude := -5 }

/-- Three fixes with pairwise distinct timestamps, fixA before fixB before fixC. -/
def fixA : GpsInfo :=
  { timestamp := "2024-05-05T10:00:00Z", latitude := 1, longitude := 2, altitude := 3 }

def fixB : GpsInfo :=
  { timestamp := "2024-05-05T11:00:00Z", latitude := 4, longitude := 5, altitude := 6 }

def fixC : GpsInfo :=
  { timestamp := "2024-05-05T12:00:00Z", latitude := 7, longitude := 8, altitude := 9 }

/-- Six-digit zero-padded rendering (the microsecond field of the ffmpeg
creation_time pattern). -/
def pad6 (n : Nat) : List Char :=
  [Char.ofNat (48 + n / 100000), Char.ofNat (48 + n / 10000 % 10),
   Char.ofNat (48 + n / 1000 % 10), Char.ofNat (48 + n / 100 % 10),
   Char.ofNat (48 + n / 10 % 10), Char.ofNat (48 + n % 10)]

/-- The EXIF datetime string with the given fields, in the fixed-width pattern
YYYY:MM:DD HH:MM:SS cameras write. -/
def exifDateTimeString (y mo d h mi s : Nat) : String :=
  String.mk (pad4 y ++ [':'] ++ pad2 mo ++ [':'] ++ pad2 d ++ [' ']
    ++ pad2 h ++ [':'] ++ pad2 mi ++ [':'] ++ pad2 s)

/-- The ffmpeg creation_time string with the given fields, in the fixed-width
UTC pattern YYYY-MM-DDTHH:MM:SS.ffffffZ. -/
def ffmpegCreationTimeString (y mo d h mi s micro : Nat) : String :=
  String.mk (pad4 y ++ ['-'] ++ pad2 mo ++ ['-'] ++ pad2 d ++ ['T']
    ++ pad2 h ++ [':'] ++ pad2 mi ++ [':'] ++ pad2 s ++ ['.'] ++ pad6 micro ++ ['Z'])

/-- The record exif_build_gps_coordinates assembles for validImg, with its
field expressions left unevaluated. -/
def validBuiltFix : GpsInfo :=
  { timestamp := isoZTimestamp ⟨2024, 5, 5, 18, 19, 59⟩,
    latitude := (10 + 30 / 60 + 0 / 3600) * (if ("N" : String) = "S" then -1 else 1),
    longitude := (1 + 2 / 60 + 3 / 3600) * (if ("E" : String) = "W" then -1 else 1),
    altitude := 5 * (if ABOVE_SEA_LEVEL = BELOW_SEA_LEVEL then -1 else 1) }

/-- The conditions under which exif_build_gps_coordinates rejects the GPS
group (the disjunction of the six missing-sub-field checks, the illegal
reference-flag checks and the not-exactly-3-components checks, exactly as the
source tests them). -/
def gpsGroupBad (img : ExifImage) : Prop :=
  img.gps_altitude = none ∨ img.gps_altitude_ref = none
  ∨ img.gps_latitude = none ∨ img.gps_latitude_ref = none
  ∨ img.gps_longitude = none ∨ img.gps_longitude_ref = none
  ∨ (¬ (img.gps_altitude_ref = some ABOVE_SEA_LEVEL
        ∨ img.gps_altitude_ref = some BELOW_SEA_LEVEL))
  ∨ (¬ (img.gps_latitude_ref = some "N" ∨ img.gps_latitude_ref = some "S"))
  ∨ (img.gps_latitude.getD []).length ≠ 3
  ∨ (¬ (img.gps_longitude_ref = some "E" ∨ img.gps_longitude_ref = some "W"))
  ∨ (img.gps_longitude.getD []).length ≠ 3

/-- charListLe is total. -/
theorem charListLe_total : ∀ as bs : List Char,
    charListLe as bs = true ∨ charListLe bs as = true := by
  intro as
  induction as with
  | nil => intro bs; left; rfl
  | cons a as ih =>
    intro bs
    cases bs with
    | nil => right; rfl
    | cons b bs =>
      by_cases h1 : a.toNat < b.toNat
      · left; simp [charListLe, h1]
      · by_cases h2 : b.toNat < a.toNat
        · right; simp [charListLe, h1, h2]
        · rcases ih bs with h | h
          · left; simp [charListLe, h1, h2, h]
          · right; simp [charListLe, h1, h2, h]

/-- charListLe is transitive. -/
theorem charListLe_trans : ∀ as bs cs : List Char,
    charListLe as bs = true → charListLe bs cs = true → charListLe as cs = true := by
  intro as
  induction as with
  | nil => intro bs cs _ _; rfl
  | cons a as ih =>
    intro bs cs h1 h2
    cases bs with
    | nil => simp [charListLe] at h1
    | cons b bs =>
      cases cs with
      | nil => simp [charListLe] at h2
      | cons c cs =>
        by_cases hab : a.toNat < b.toNat
        · by_cases hbc : b.toNat < c.toNat
          · have hac : a.toNat < c.toNat := by omega
            simp [charListLe, hac]
          · simp only [charListLe, if_neg hbc] at h2
            by_cases hcb : c.toNat < b.toNat
            · rw [if_pos hcb] at h2; exact absurd h2 (by simp)
            · rw [if_neg hcb] at h2
              have hac : a.toNat < c.toNat := by omega
              simp [charListLe, hac]
        · by_cases hba : b.toNat < a.toNat
          · simp only [charListLe, if_neg hab, if_pos hba] at h1
            exact absurd h1 (by simp)
          · simp only [charListLe, if_neg hab, if_neg hba] at h1
            by_cases hbc : b.toNat < c.toNat
            · have hac : a.toNat < c.toNat := by omega
              simp [charListLe, hac]
            · by_cases hcb : c.toNat < b.toNat
              · simp only [charListLe, if_neg hbc, if_pos hcb] at h2
                exact absurd h2 (by simp)
              · simp only [charListLe, if_neg hbc, if_neg hcb] at h2
                have hac : ¬ a.toNat < c.toNat := by omega
                have hca : ¬ c.toNat < a.toNat := by omega
                simp only [charListLe, if_neg hac, if_neg hca]
                exact ih bs cs h1 h2

/-- tsLe is total on GpsInfo. -/
theorem tsLe_total : ∀ a b : GpsInfo, tsLe a b ∨ tsLe b a := fun a b =>
  charListLe_total a.timestamp.toList b.timestamp.toList

/-- tsLe is transitive on GpsInfo. -/
theorem tsLe_trans : ∀ a b c : GpsInfo, tsLe a b → tsLe b c → tsLe a c := fun a b c h1 h2 =>
  charListLe_trans a.timestamp.toList b.timestamp.toList c.timestamp.toList h1 h2

/-- Claim C4: the track-log serialization orders the collected fixes by
sorting them: for every list of fixes, in whatever order it was supplied, the
sorted sequence written by write_gpx_trace is a permutation of the input that
is pairwise non-decreasing on timestamps, and the document serializes exactly
that sequence; in particular the inputs with timestamps C, A, B come out in
the order A, B, C. -/
theorem claim_C4 :
    (∀ entries : List GpsInfo,
       (pySortedByTimestamp entries).Perm entries
       ∧ List.Pairwise tsLe (pySortedByTimestamp entries)
       ∧ (write_gpx_trace entries ⟨[]⟩).2.2 =
           gpxHeader ++ String.join ((pySortedByTimestamp entries).map trkpt) ++ gpxFooter)
    ∧ pySortedByTimestamp [fixC, fixA, fixB] = [fixA, fixB, fixC] := by
  constructor
  · intro entries
    refine ⟨List.perm_insertionSort tsLe entries, ?_, rfl⟩
    exact @List.sorted_insertionSort GpsInfo tsLe _ ⟨tsLe_total⟩ ⟨tsLe_trans⟩ entries
  · rfl

/-- Claim C2 counterexample: for a jpg whose EXIF datetime string is
malformed, process_media raises ValueError; the except clause of
try_process_file names SkipFileError, so this exception is not caught, not
logged, and not converted to a no-result: it escapes the per-file boundary. -/
theorem claim_C2_counterexample :
    (try_process_file "photos/IMG_0001.jpg" badDtMeta false ⟨["photos/IMG_0001.jpg"]⟩).1
      = .error (.valueError
          ("time data does not match format %Y:%m:%d %H:%M:%S: not a datetime"))
    ∧ (try_process_file "photos/IMG_0001.jpg" badDtMeta false ⟨["photos/IMG_0001.jpg"]⟩).1
      ≠ .ok none := by
  refine ⟨rfl, fun h => ?_⟩
  rw [show (try_process_file "photos/IMG_0001.jpg" badDtMeta false
      ⟨["photos/IMG_0001.jpg"]⟩).1
    = .error (.valueError
        ("time data does not match format %Y:%m:%d %H:%M:%S: not a datetime")) from rfl] at h
  exact Except.noConfusion h

/-- Claim C2 (amended): exactly the exceptions classified as skip-file errors
(the SkipFileError subclasses) are caught at the per-file boundary of
try_process_file, logged as a skip warning, and converted to a None result for
that file with the state reached so far preserved; every other exception
propagates out of the boundary unchanged. -/
theorem claim_C2_amended (path : String) (meta : FileMeta) (dry : Bool) (w : World)
    (e : PyExc) (w1 : World) (effs : List FsEff) (warns : List String)
    (herr : process_media path meta dry w = (.error e, w1, effs, warns)) :
    (e.isSkipFileError = true →
      try_process_file path meta dry w
        = (.ok none, w1, effs, warns ++ ["Skipping file: " ++ e.msg]))
    ∧ (e.isSkipFileError = false →
      try_process_file path meta dry w = (.error e, w1, effs, warns)) := by
  unfold try_process_file
  rw [herr]
  constructor
  · intro hs; simp [hs]
  · intro hs; simp [hs]

/-- Witness for claim C2 (amended), at the malformed-datetime input: the
ValueError is propagated with the read effect and state it had produced. -/
theorem claim_C2_witness :
    try_process_file "photos/IMG_0001.jpg" badDtMeta false ⟨["photos/IMG_0001.jpg"]⟩
      = (.error (.valueError
            ("time data does not match format %Y:%m:%d %H:%M:%S: not a datetime")),
         ⟨["photos/IMG_0001.jpg"]⟩, [.readExif "photos/IMG_0001.jpg"], []) :=
  (claim_C2_amended "photos/IMG_0001.jpg" badDtMeta false ⟨["photos/IMG_0001.jpg"]⟩
      (.valueError ("time data does not match format %Y:%m:%d %H:%M:%S: not a datetime"))
      ⟨["photos/IMG_0001.jpg"]⟩ [.readExif "photos/IMG_0001.jpg"] [] rfl).2 rfl

/-- Evaluation of exif_build_gps_coordinates on a group that passes every
check: it returns the GpsInfo built from the six sub-fields. -/
theorem exif_build_gps_coordinates_eq_ok (img : ExifImage) (dt : PyDateTime)
    (la0 la1 la2 lo0 lo1 lo2 alt : Rat) (lr lor : String) (ar : Nat)
    (hlat : img.gps_latitude = some [la0, la1, la2])
    (hlatr : img.gps_latitude_ref = some lr)
    (hlon : img.gps_longitude = some [lo0, lo1, lo2])
    (hlonr : img.gps_longitude_ref = some lor)
    (halt : img.gps_altitude = some alt)
    (haltr : img.gps_altitude_ref = some ar)
    (har : ar = ABOVE_SEA_LEVEL ∨ ar = BELOW_SEA_LEVEL)
    (hlr : lr = "N" ∨ lr = "S") (hlor : lor = "E" ∨ lor = "W") :
    exif_build_gps_coordinates img dt =
      .ok { timestamp := isoZTimestamp dt,
            latitude := (la0 + la1 / 60 + la2 / 3600) * (if lr = "S" then -1 else 1),
            longitude := (lo0 + lo1 / 60 + lo2 / 3600) * (if lor = "W" then -1 else 1),
            altitude := alt * (if ar = BELOW_SEA_LEVEL then -1 else 1) } := by
  rcases har with har | har <;> rcases hlr with hlr | hlr <;> rcases hlor with hlor | hlor <;>
    subst har <;> subst hlr <;> subst hlor <;>
    simp [exif_build_gps_coordinates, hlat, hlatr, hlon, hlonr, halt, haltr,
      ABOVE_SEA_LEVEL, BELOW_SEA_LEVEL]

/-- Claim C6 counterexample: the DMS triple 0 0 0 with reference S passes
every validity check of exif_build_gps_coordinates and yields latitude 0,
which is not negative, contradicting the claim that reference S always yields
a negative decimal value. -/
theorem claim_C6_counterexample :
    exif_build_gps_coordinates zeroSImg ⟨2024, 5, 5, 18, 19, 59⟩
      = .ok { timestamp := isoZTimestamp ⟨2024, 5, 5, 18, 19, 59⟩, latitude := 0,
              longitude := 1 + 2 / 60 + 3 / 3600, altitude := 5 }
    ∧ ¬ (({ timestamp := isoZTimestamp ⟨2024, 5, 5, 18, 19, 59⟩, latitude := 0,
            longitude := 1 + 2 / 60 + 3 / 3600, altitude := 5 } : GpsInfo).latitude < 0) := by
  constructor
  · rw [exif_build_gps_coordinates_eq_ok zeroSImg ⟨2024, 5, 5, 18, 19, 59⟩
      0 0 0 1 2 3 5 "S" "E" ABOVE_SEA_LEVEL rfl rfl rfl rfl rfl rfl
      (Or.inl rfl) (Or.inr rfl) (Or.inl rfl)]
    rw [Except.ok.injEq, GpsInfo.mk.injEq]
    refine ⟨rfl, ?_, ?_, ?_⟩
    · rw [if_pos rfl, mul_neg_one]; norm_num
    · rw [if_neg (by decide), mul_one]
    · rw [if_neg (by decide), mul_one]
  · norm_num

/-- Claim C6 (amended): for every valid GPS sub-field set with non-negative
DMS magnitudes, the negative-hemisphere references S, W and below-sea-level
yield non-positive decimal values, strictly negative whenever the magnitude is
nonzero, and the complementary references N, E and above-sea-level yield
non-negative values; degrees minutes seconds 10 30 0 with reference N yields
latitude exactly 21 / 2, that is 10.5. -/
theorem claim_C6_amended (img : ExifImage) (dt : PyDateTime) (g : GpsInfo)
    (la0 la1 la2 lo0 lo1 lo2 alt : Rat) (lr lor : String) (ar : Nat)
    (hlat : img.gps_latitude = some [la0, la1, la2])
    (hlatr : img.gps_latitude_ref = some lr)
    (hlon : img.gps_longitude = some [lo0, lo1, lo2])
    (hlonr : img.gps_longitude_ref = some lor)
    (halt : img.gps_altitude = some alt)
    (haltr : img.gps_altitude_ref = some ar)
    (har : ar = ABOVE_SEA_LEVEL ∨ ar = BELOW_SEA_LEVEL)
    (hlr : lr = "N" ∨ lr = "S") (hlor : lor = "E" ∨ lor = "W")
    (hla0 : 0 ≤ la0) (hla1 : 0 ≤ la1) (hla2 : 0 ≤ la2)
    (hlo0 : 0 ≤ lo0) (hlo1 : 0 ≤ lo1) (hlo2 : 0 ≤ lo2) (halt0 : 0 ≤ alt)
    (hok : exif_build_gps_coordinates img dt = .ok g) :
    ((lr = "S" → g.latitude ≤ 0 ∧ (0 < la0 + la1 / 60 + la2 / 3600 → g.latitude < 0))
     ∧ (lr = "N" → 0 ≤ g.latitude))
    ∧ ((lor = "W" → g.longitude ≤ 0 ∧ (0 < lo0 + lo1 / 60 + lo2 / 3600 → g.longitude < 0))
     ∧ (lor = "E" → 0 ≤ g.longitude))
    ∧ ((ar = BELOW_SEA_LEVEL → g.altitude ≤ 0 ∧ (0 < alt → g.altitude < 0))
     ∧ (ar = ABOVE_SEA_LEVEL → 0 ≤ g.altitude))
    ∧ exif_build_gps_coordinates validImg ⟨2024, 5, 5, 18, 19, 59⟩
        = .ok { timestamp := isoZTimestamp ⟨2024, 5, 5, 18, 19, 59⟩, latitude := 21 / 2,
                longitude := 1 + 2 / 60 + 3 / 3600, altitude := 5 } := by
  have hh := exif_build_gps_coordinates_eq_ok img dt la0 la1 la2 lo0 lo1 lo2 alt lr lor ar
    hlat hlatr hlon hlonr halt haltr har hlr hlor
  rw [hok, Except.ok.injEq] at hh
  subst hh
  have hlasum : 0 ≤ la0 + la1 / 60 + la2 / 3600 := by positivity
  have hlosum : 0 ≤ lo0 + lo1 / 60 + lo2 / 3600 := by positivity
  refine ⟨⟨?_, ?_⟩, ⟨?_, ?_⟩, ⟨?_, ?_⟩, ?_⟩
  · intro href
    subst href
    constructor
    · show (la0 + la1 / 60 + la2 / 3600) * (if ("S" : String) = "S" then -1 else 1) ≤ 0
      rw [if_pos rfl, mul_neg_one]
      linarith
    · intro hpos
      show (la0 + la1 / 60 + la2 / 3600) * (if ("S" : String) = "S" then -1 else 1) < 0
      rw [if_pos rfl, mul_neg_one]
      linarith
  · intro href
    subst href
    show 0 ≤ (la0 + la1 / 60 + la2 / 3600) * (if ("N" : String) = "S" then -1 else 1)
    rw [if_neg (by decide), mul_one]
    exact hlasum
  · intro href
    subst href
    constructor
    · show (lo0 + lo1 / 60 + lo2 / 3600) * (if ("W" : String) = "W" then -1 else 1) ≤ 0
      rw [if_pos rfl, mul_neg_one]
      linarith
    · intro hpos
      show (lo0 + lo1 / 60 + lo2 / 3600) * (if ("W" : String) = "W" then -1 else 1) < 0
      rw [if_pos rfl, mul_neg_one]
      linarith
  · intro href
    subst href
    show 0 ≤ (lo0 + lo1 / 60 + lo2 / 3600) * (if ("E" : String) = "W" then -1 else 1)
    rw [if_neg (by decide), mul_one]
    exact hlosum
  · intro href
    subst href
    constructor
    · show alt * (if BELOW_SEA_LEVEL = BELOW_SEA_LEVEL then -1 else 1) ≤ 0
      rw [if_pos rfl, mul_neg_one]
      linarith
    · intro hpos
      show alt * (if BELOW_SEA_LEVEL = BELOW_SEA_LEVEL then -1 else 1) < 0
      rw [if_pos rfl, mul_neg_one]
      linarith
  · intro href
    subst href
    show 0 ≤ alt * (if ABOVE_SEA_LEVEL = BELOW_SEA_LEVEL then -1 else 1)
    rw [if_neg (by decide), mul_one]
    exact halt0
  · rw [exif_build_gps_coordinates_eq_ok validImg ⟨2024, 5, 5, 18, 19, 59⟩
      10 30 0 1 2 3 5 "N" "E" ABOVE_SEA_LEVEL rfl rfl rfl rfl rfl rfl
      (Or.inl rfl) (Or.inl rfl) (Or.inl rfl)]
    rw [Except.ok.injEq, GpsInfo.mk.injEq]
    refine ⟨rfl, ?_, ?_, ?_⟩
    · rw [if_neg (by decide), mul_one]; norm_num
    · rw [if_neg (by decide), mul_one]
    · rw [if_neg (by decide), mul_one]

/-- Witness for claim C6 (amended) at the all-negative-references image:
latitude, longitude and altitude all come out strictly negative. -/
theorem claim_C6_witness :
    (negFix.latitude ≤ 0 ∧ negFix.latitude < 0)
    ∧ (negFix.longitude ≤ 0 ∧ negFix.longitude < 0)
    ∧ (negFix.altitude ≤ 0 ∧ negFix.altitude < 0) := by
  have hok : exif_build_gps_coordinates negImg ⟨2024, 5, 5, 18, 19, 59⟩ = .ok negFix := by
    rw [exif_build_gps_coordinates_eq_ok negImg ⟨2024, 5, 5, 18, 19, 59⟩
      10 30 0 1 2 3 5 "S" "W" BELOW_SEA_LEVEL rfl rfl rfl rfl rfl rfl
      (Or.inr rfl) (Or.inr rfl) (Or.inr rfl)]
    simp only [negFix]
    rw [Except.ok.injEq, GpsInfo.mk.injEq]
    refine ⟨rfl, ?_, ?_, ?_⟩
    · norm_num
    · norm_num
    · norm_num
  have h := claim_C6_amended negImg ⟨2024, 5, 5, 18, 19, 59⟩ negFix 10 30 0 1 2 3 5
    "S" "W" BELOW_SEA_LEVEL rfl rfl rfl rfl rfl rfl
    (Or.inr rfl) (Or.inr rfl) (Or.inr rfl)
    (by norm_num) (by norm_num) (by norm_num) (by norm_num) (by norm_num)
    (by norm_num) (by norm_num) hok
  exact ⟨⟨(h.1.1 rfl).1, (h.1.1 rfl).2 (by norm_num)⟩,
    ⟨(h.2.1.1 rfl).1, (h.2.1.1 rfl).2 (by norm_num)⟩,
    ⟨(h.2.2.1.1 rfl).1, (h.2.2.1.1 rfl).2 (by norm_num)⟩⟩

/-- Collapsing List.attach before flatMap. -/
theorem attach_flatMap_eq {α β : Type} (l : List α) (f : α → List β) :
    l.attach.flatMap (fun x => f x.1) = l.flatMap f := by
  induction l with
  | nil => simp
  | cons a l ih => simp [List.flatMap_map, ih]

/-- The one-step unfolding of process_directory, with the attach bookkeeping
removed: the files of the root are queued once, and every subdirectory is
walked twice, once by the os.walk continuation and once by the explicit
recursion. -/
theorem process_directory_eq (p n : String) (files : List String) (subs : List FsTree) :
    process_directory p (.dir n files subs) =
      files.map (fun f => joinPath p f)
      ++ subs.flatMap (fun s => process_directory (joinPath p s.name) s)
      ++ subs.flatMap (fun s => process_directory (joinPath p s.name) s) := by
  have hexp : ∀ (q : String) (t : FsTree), process_directory q t =
      (osWalk q t).flatMap (fun e =>
        e.2.2.map (fun f => joinPath e.1 f)
        ++ e.2.1.flatMap (fun d => process_directory (joinPath e.1 d.name) d)) := by
    intro q t
    rw [process_directory]
    refine Eq.trans (attach_flatMap_eq (osWalk q t) (fun e =>
      e.2.2.map (fun f => joinPath e.1 f)
      ++ e.2.1.attach.flatMap (fun d => process_directory (joinPath e.1 d.1.name) d.1))) ?_
    exact List.flatMap_congr (fun e _ =>
      congrArg (e.2.2.map (fun f => joinPath e.1 f) ++ ·)
        (attach_flatMap_eq e.2.1 (fun d => process_directory (joinPath e.1 d.name) d)))
  rw [hexp p (.dir n files subs), osWalk]
  rw [List.flatMap_cons, List.flatMap_assoc]
  have hsub : (subs.attach.flatMap fun s =>
      (osWalk (joinPath p s.1.name) s.1).flatMap (fun e =>
        e.2.2.map (fun f => joinPath e.1 f)
        ++ e.2.1.flatMap (fun d => process_directory (joinPath e.1 d.name) d)))
      = subs.flatMap (fun s => process_directory (joinPath p s.name) s) := by
    refine Eq.trans ?_ (attach_flatMap_eq subs
      (fun s => process_directory (joinPath p s.name) s))
    exact List.flatMap_congr (fun s _ => (hexp (joinPath p s.1.name) s.1).symm)
  rw [hsub, List.append_assoc]

/-- A decimal digit character has the expected code point. -/
theorem toNat_digitChar {k : Nat} (hk : k < 10) : (Char.ofNat (48 + k)).toNat = 48 + k := by
  have h : ∀ k' < 10, (Char.ofNat (48 + k')).toNat = 48 + k' := by decide
  exact h k hk

/-- A decimal digit character satisfies isDigit. -/
theorem isDigit_digitChar {k : Nat} (hk : k < 10) : (Char.ofNat (48 + k)).isDigit = true := by
  have h : ∀ k' < 10, (Char.ofNat (48 + k')).isDigit = true := by decide
  exact h k hk

/-- Parsing the two digit characters of a padded value recovers it. -/
theorem d2_pad {n : Nat} (h : n < 100) :
    d2 (Char.ofNat (48 + n / 10)) (Char.ofNat (48 + n % 10)) = n := by
  unfold d2
  rw [toNat_digitChar (by omega), toNat_digitChar (by omega)]
  omega

/-- Parsing the four digit characters of a padded value recovers it. -/
theorem d4_pad {n : Nat} (h : n < 10000) :
    d4 (Char.ofNat (48 + n / 1000)) (Char.ofNat (48 + n / 100 % 10))
       (Char.ofNat (48 + n / 10 % 10)) (Char.ofNat (48 + n % 10)) = n := by
  unfold d4
  rw [toNat_digitChar (by omega), toNat_digitChar (by omega),
    toNat_digitChar (by omega), toNat_digitChar (by omega)]
  omega

/-- Months never exceed 31 days. -/
theorem daysInMonth_le (y m : Nat) : daysInMonth y m ≤ 31 := by
  unfold daysInMonth
  split_ifs <;> omega

/-- Round trip of the EXIF datetime parser over the fixed-width rendering: a
well-formed in-range EXIF datetime string parses to exactly its fields. -/
theorem exifStrptime_roundtrip (y mo d h mi s : Nat) (hv : validDateTime y mo d h mi s) :
    exifStrptime (exifDateTimeString y mo d h mi s) = some ⟨y, mo, d, h, mi, s⟩ := by
  have hv' := hv
  unfold validDateTime at hv'
  obtain ⟨hb1, hb2, hb3, hb4, hb5, hb6, hb7, hb8, hb9⟩ := hv'
  have hdm := daysInMonth_le y mo
  unfold exifDateTimeString
  unfold exifStrptime
  simp only [pad4, pad2, List.cons_append, List.nil_append, String.toList]
  rw [if_pos ⟨trivial, trivial, trivial, trivial, trivial, by
    simp [isDigit_digitChar (show y / 1000 < 10 by omega),
      isDigit_digitChar (show y / 100 % 10 < 10 by omega),
      isDigit_digitChar (show y / 10 % 10 < 10 by omega),
      isDigit_digitChar (show y % 10 < 10 by omega),
      isDigit_digitChar (show mo / 10 < 10 by omega),
      isDigit_digitChar (show mo % 10 < 10 by omega),
      isDigit_digitChar (show d / 10 < 10 by omega),
      isDigit_digitChar (show d % 10 < 10 by omega),
      isDigit_digitChar (show h / 10 < 10 by omega),
      isDigit_digitChar (show h % 10 < 10 by omega),
      isDigit_digitChar (show mi / 10 < 10 by omega),
      isDigit_digitChar (show mi % 10 < 10 by omega),
      isDigit_digitChar (show s / 10 < 10 by omega),
      isDigit_digitChar (show s % 10 < 10 by omega)]⟩]
  rw [d4_pad (show y < 10000 by omega), d2_pad (show mo < 100 by omega),
    d2_pad (show d < 100 by omega), d2_pad (show h < 100 by omega),
    d2_pad (show mi < 100 by omega), d2_pad (show s < 100 by omega)]
  rw [if_pos hv]

/-- Round trip of the ffmpeg creation_time parser over the fixed-width
rendering. -/
theorem ffmpegStrptime_roundtrip (y mo d h mi s micro : Nat)
    (hv : validDateTime y mo d h mi s) (hmic : micro < 1000000) :
    ffmpegStrptime (ffmpegCreationTimeString y mo d h mi s micro)
      = some ⟨y, mo, d, h, mi, s⟩ := by
  have hv' := hv
  unfold validDateTime at hv'
  obtain ⟨hb1, hb2, hb3, hb4, hb5, hb6, hb7, hb8, hb9⟩ := hv'
  have hdm := daysInMonth_le y mo
  unfold ffmpegCreationTimeString
  unfold ffmpegStrptime
  simp only [pad4, pad2, pad6, List.cons_append, List.nil_append, String.toList]
  rw [if_pos ⟨trivial, trivial, trivial, trivial, trivial, trivial, trivial, by
    simp [isDigit_digitChar (show y / 1000 < 10 by omega),
      isDigit_digitChar (show y / 100 % 10 < 10 by omega),
      isDigit_digitChar (show y / 10 % 10 < 10 by omega),
      isDigit_digitChar (show y % 10 < 10 by omega),
      isDigit_digitChar (show mo / 10 < 10 by omega),
      isDigit_digitChar (show mo % 10 < 10 by omega),
      isDigit_digitChar (show d / 10 < 10 by omega),
      isDigit_digitChar (show d % 10 < 10 by omega),
      isDigit_digitChar (show h / 10 < 10 by omega),
      isDigit_digitChar (show h % 10 < 10 by omega),
      isDigit_digitChar (show mi / 10 < 10 by omega),
      isDigit_digitChar (show mi % 10 < 10 by omega),
      isDigit_digitChar (show s / 10 < 10 by omega),
      isDigit_digitChar (show s % 10 < 10 by omega),
      isDigit_digitChar (show micro / 100000 < 10 by omega),
      isDigit_digitChar (show micro / 10000 % 10 < 10 by omega),
      isDigit_digitChar (show micro / 1000 % 10 < 10 by omega),
      isDigit_digitChar (show micro / 100 % 10 < 10 by omega),
      isDigit_digitChar (show micro / 10 % 10 < 10 by omega),
      isDigit_digitChar (show micro % 10 < 10 by omega)]⟩]
  rw [d4_pad (show y < 10000 by omega), d2_pad (show mo < 100 by omega),
    d2_pad (show d < 100 by omega), d2_pad (show h < 100 by omega),
    d2_pad (show mi < 100 by omega), d2_pad (show s < 100 by omega)]
  rw [if_pos hv]

/-- Evaluation of exif_get_information when the GPS group is valid. -/
theorem exif_get_information_eq_ok (path : String) (img : ExifImage) (dtStr : String)
    (dt : PyDateTime) (g : GpsInfo)
    (hexif : img.has_exif = true) (hdt : img.datetime = some dtStr)
    (hparse : exifStrptime dtStr = some dt)
    (hgps : exif_build_gps_coordinates img dt = .ok g) :
    exif_get_information path img =
      .ok (dateIso dt ++ "_" ++ timeIsoDashes dt ++ "_LOCAL", dateIso dt, some g, []) := by
  simp only [exif_get_information, hexif, hdt, hparse, hgps]
  simp

/-- Evaluation of exif_get_information when the GPS group is rejected: the
file still completes with gps none and one warning. -/
theorem exif_get_information_eq_warn (path : String) (img : ExifImage) (dtStr : String)
    (dt : PyDateTime) (m : String)
    (hexif : img.has_exif = true) (hdt : img.datetime = some dtStr)
    (hparse : exifStrptime dtStr = some dt)
    (hgps : exif_build_gps_coordinates img dt = .error (.exifGpsData m)) :
    exif_get_information path img =
      .ok (dateIso dt ++ "_" ++ timeIsoDashes dt ++ "_LOCAL", dateIso dt, none,
        ["Cannot use " ++ path ++ " GPS coordinates: " ++ m]) := by
  simp only [exif_get_information, hexif, hdt, hparse, hgps]
  simp

/-- Every error exif_build_gps_coordinates raises is an ExifGpsDataError. -/
theorem exif_build_gps_coordinates_error (img : ExifImage) (dt : PyDateTime) (e : PyExc)
    (h : exif_build_gps_coordinates img dt = .error e) : ∃ m, e = .exifGpsData m := by
  simp only [exif_build_gps_coordinates] at h
  split_ifs at h <;> first
    | (rw [Except.error.injEq] at h; exact ⟨_, h.symm⟩)
    | exact absurd h (by simp)

/-- The timestamp of any fix exif_build_gps_coordinates constructs is the
strftime ISO Z rendering of the datetime it received. -/
theorem exif_build_timestamp (img : ExifImage) (dt : PyDateTime) (g : GpsInfo)
    (hok : exif_build_gps_coordinates img dt = .ok g) : g.timestamp = isoZTimestamp dt := by
  simp only [exif_build_gps_coordinates] at hok
  split_ifs at hok <;> first
    | (rw [Except.ok.injEq] at hok; rw [← hok])
    | exact absurd hok (by simp)

/-- Claim C10: for every still image for which a GpsFix is constructed, the
fix timestamp is the EXIF datetime field (the camera local clock reading, in
the YYYY:MM:DD HH:MM:SS pattern) re-rendered verbatim as
YYYY-MM-DDTHH:MM:SSZ: the same six numeric fields reappear with the literal Z
appended, and no timezone conversion is applied to the underlying value. -/
theorem claim_C10 (path : String) (img : ExifImage) (y mo d h mi s : Nat)
    (hv : validDateTime y mo d h mi s)
    (hexif : img.has_exif = true)
    (hdt : img.datetime = some (exifDateTimeString y mo d h mi s))
    (nm dte : String) (g : GpsInfo) (warns : List String)
    (hok : exif_get_information path img = .ok (nm, dte, some g, warns)) :
    g.timestamp = String.mk (pad4 y ++ ['-'] ++ pad2 mo ++ ['-'] ++ pad2 d ++ ['T']
      ++ pad2 h ++ [':'] ++ pad2 mi ++ [':'] ++ pad2 s ++ ['Z']) := by
  have hparse := exifStrptime_roundtrip y mo d h mi s hv
  cases hb : exif_build_gps_coordinates img ⟨y, mo, d, h, mi, s⟩ with
  | ok g0 =>
    rw [exif_get_information_eq_ok path img _ _ g0 hexif hdt hparse hb] at hok
    simp only [Except.ok.injEq, Prod.mk.injEq, Option.some.injEq] at hok
    obtain ⟨-, -, hg, -⟩ := hok
    rw [← hg]
    rw [exif_build_timestamp img _ g0 hb]
    rfl
  | error e =>
    obtain ⟨m, rfl⟩ := exif_build_gps_coordinates_error img _ e hb
    rw [exif_get_information_eq_warn path img _ _ m hexif hdt hparse hb] at hok
    simp at hok

/-- Witness for claim C10 at validImg: the constructed fix timestamp is the
EXIF clock reading 2024:05:05 18:19:59 re-rendered as 2024-05-05T18:19:59Z. -/
theorem claim_C10_witness : validBuiltFix.timestamp = "2024-05-05T18:19:59Z" := by
  have hgps : exif_build_gps_coordinates validImg ⟨2024, 5, 5, 18, 19, 59⟩
      = .ok validBuiltFix :=
    exif_build_gps_coordinates_eq_ok validImg ⟨2024, 5, 5, 18, 19, 59⟩
      10 30 0 1 2 3 5 "N" "E" ABOVE_SEA_LEVEL rfl rfl rfl rfl rfl rfl
      (Or.inl rfl) (Or.inl rfl) (Or.inl rfl)
  have h := claim_C10 "a.jpg" validImg 2024 5 5 18 19 59 (by decide) rfl rfl
    "2024-05-05_18-19-59_LOCAL" "2024-05-05" validBuiltFix []
    (exif_get_information_eq_ok "a.jpg" validImg "2024:05:05 18:19:59"
      ⟨2024, 5, 5, 18, 19, 59⟩ validBuiltFix rfl rfl rfl hgps)
  exact h.trans rfl

/-- A bad GPS group makes exif_build_gps_coordinates raise ExifGpsDataError. -/
theorem gpsGroupBad_build (img : ExifImage) (dt : PyDateTime) (hbad : gpsGroupBad img) :
    ∃ m, exif_build_gps_coordinates img dt = .error (.exifGpsData m) := by
  unfold gpsGroupBad at hbad
  simp only [exif_build_gps_coordinates]
  split_ifs
  any_goals exact ⟨_, rfl⟩
  exfalso
  tauto

/-- Evaluation of rename_without_overwrite when the first candidate is free:
the directory is created if absent and the file is renamed to the unsuffixed
candidate. -/
theorem rename_without_overwrite_free (path new_name out_directory extension : String)
    (w : World)
    (hfree : joinPath out_directory (new_name ++ extension) ∉ w.existing)
    (hdir : joinPath out_directory (new_name ++ extension) ≠ out_directory) :
    rename_without_overwrite path new_name out_directory extension false w
      = (.ok (), ⟨joinPath out_directory (new_name ++ extension) ::
          (if out_directory ∈ w.existing then w.existing
           else out_directory :: w.existing).erase path⟩,
         (if out_directory ∈ w.existing then ([] : List FsEff)
          else [.mkdir out_directory])
           ++ [.rename path (joinPath out_directory (new_name ++ extension))]) := by
  by_cases hdm : out_directory ∈ w.existing
  · have hcd : create_directory out_directory false w = (w, []) := by
      unfold create_directory
      rw [if_neg (by simp), if_pos (by simp [pathExists, hdm])]
    have hft : findTarget w out_directory extension new_name MAX_CONFLICT_SUFFIXING
        = .ok (joinPath out_directory (new_name ++ extension)) := by
      rw [findTarget.eq_def]
      simp [pathExists, hfree]
    have hrf : rename_file path (joinPath out_directory (new_name ++ extension)) false w
        = (⟨joinPath out_directory (new_name ++ extension) :: w.existing.erase path⟩,
           [.rename path (joinPath out_directory (new_name ++ extension))]) := by
      unfold rename_file
      rw [if_neg (by simp)]
    rw [if_pos hdm, if_pos hdm]
    simp only [rename_without_overwrite, hcd, hft, hrf]
  · have hcd : create_directory out_directory false w
        = (⟨out_directory :: w.existing⟩, [.mkdir out_directory]) := by
      unfold create_directory
      rw [if_neg (by simp), if_neg (by simp [pathExists, hdm])]
    have hft : findTarget (⟨out_directory :: w.existing⟩ : World) out_directory extension
        new_name MAX_CONFLICT_SUFFIXING
        = .ok (joinPath out_directory (new_name ++ extension)) := by
      rw [findTarget.eq_def]
      simp [pathExists, hfree, hdir]
    have hrf : rename_file path (joinPath out_directory (new_name ++ extension)) false
        (⟨out_directory :: w.existing⟩ : World)
        = (⟨joinPath out_directory (new_name ++ extension) ::
            (out_directory :: w.existing).erase path⟩,
           [.rename path (joinPath out_directory (new_name ++ extension))]) := by
      unfold rename_file
      rw [if_neg (by simp)]
    rw [if_neg hdm, if_neg hdm]
    simp only [rename_without_overwrite, hcd, hft, hrf]

/-- Evaluation of process_media on a file with a jpg extension whose EXIF
read succeeds and whose relocation succeeds. -/
theorem process_media_jpg_ok (path : String) (meta : FileMeta) (dry : Bool) (w : World)
    (hext : pyLower (splitext (basename path)).2 = ".jpg")
    (nm out : String) (gps : Option GpsInfo) (warns : List String)
    (hinfo : exif_get_information path meta.exifData = .ok (nm, out, gps, warns))
    (w3 : World) (e3 : List FsEff)
    (hrn : rename_without_overwrite path nm out ".jpg" dry w = (.ok (), w3, e3)) :
    process_media path meta dry w = (.ok gps, w3, .readExif path :: e3, warns) := by
  have r1 : ((".jpg" : String) ∈ REMOVE_EXTENSIONS) = False := eq_false (by decide)
  have r2 : ((".jpg" : String) ∈ TRANSFORM_IMAGE_EXTENSIONS) = False := eq_false (by decide)
  have r3 : pyInStr ".jpg" EXIF_IMAGE_EXTENSIONS = true := rfl
  have r4 : ((".jpg" : String) ∈ VIDEO_IMAGE_EXT) = False := eq_false (by decide)
  simp only [process_media, hext, r1, r2, r3, r4, if_false, if_true, hinfo, hrn]
  simp

/-- Claim C5: for every still image whose EXIF GPS group is missing any of
the six required sub-fields, or whose reference flag is illegal, or whose
coordinate does not have exactly 3 components, no fix is constructed
(gps = none), the skip warning is logged, and the rest of the processing of
that file, timestamp extraction and relocation, still completes: the whole
file ends in a successful rename with result none rather than an error. -/
theorem claim_C5 (path : String) (img : ExifImage) (ff : FfmpegInfo)
    (dtStr : String) (dt : PyDateTime) (w : World)
    (hexif : img.has_exif = true) (hdt : img.datetime = some dtStr)
    (hparse : exifStrptime dtStr = some dt)
    (hbad : gpsGroupBad img)
    (hext : pyLower (splitext (basename path)).2 = ".jpg")
    (hfree : joinPath (dateIso dt)
        ((dateIso dt ++ "_" ++ timeIsoDashes dt ++ "_LOCAL") ++ ".jpg") ∉ w.existing)
    (hdir : joinPath (dateIso dt)
        ((dateIso dt ++ "_" ++ timeIsoDashes dt ++ "_LOCAL") ++ ".jpg") ≠ dateIso dt) :
    ∃ m,
      exif_get_information path img
        = .ok (dateIso dt ++ "_" ++ timeIsoDashes dt ++ "_LOCAL", dateIso dt, none,
               ["Cannot use " ++ path ++ " GPS coordinates: " ++ m])
      ∧ (process_media path ⟨img, ff⟩ false w).1 = .ok none
      ∧ FsEff.rename path (joinPath (dateIso dt)
            ((dateIso dt ++ "_" ++ timeIsoDashes dt ++ "_LOCAL") ++ ".jpg"))
          ∈ (process_media path ⟨img, ff⟩ false w).2.2.1
      ∧ (process_media path ⟨img, ff⟩ false w).2.2.2
          = ["Cannot use " ++ path ++ " GPS coordinates: " ++ m] := by
  obtain ⟨m, hberr⟩ := gpsGroupBad_build img dt hbad
  refine ⟨m, exif_get_information_eq_warn path img dtStr dt m hexif hdt hparse hberr, ?_⟩
  have hinfo : exif_get_information path (FileMeta.mk img ff).exifData
      = .ok (dateIso dt ++ "_" ++ timeIsoDashes dt ++ "_LOCAL", dateIso dt, none,
             ["Cannot use " ++ path ++ " GPS coordinates: " ++ m]) :=
    exif_get_information_eq_warn path img dtStr dt m hexif hdt hparse hberr
  have hrn := rename_without_overwrite_free path
    (dateIso dt ++ "_" ++ timeIsoDashes dt ++ "_LOCAL") (dateIso dt) ".jpg" w hfree hdir
  have hpm := process_media_jpg_ok path ⟨img, ff⟩ false w hext
    (dateIso dt ++ "_" ++ timeIsoDashes dt ++ "_LOCAL") (dateIso dt) none
    ["Cannot use " ++ path ++ " GPS coordinates: " ++ m] hinfo _ _ hrn
  rw [hpm]
  refine ⟨rfl, ?_, rfl⟩
  simp

/-- Witness for claim C5 at an image whose GPS altitude sub-field is missing:
the file is still renamed into its date bucket and yields no fix. -/
theorem claim_C5_witness :
    ∃ m,
      exif_get_information "d/photo.jpg" noAltImg
        = .ok ("2024-05-05" ++ "_" ++ "18-19-59" ++ "_LOCAL", "2024-05-05", none,
               ["Cannot use " ++ "d/photo.jpg" ++ " GPS coordinates: " ++ m])
      ∧ (process_media "d/photo.jpg" ⟨noAltImg, noFf⟩ false ⟨["d/photo.jpg"]⟩).1 = .ok none
      ∧ FsEff.rename "d/photo.jpg" (joinPath "2024-05-05"
            (("2024-05-05" ++ "_" ++ "18-19-59" ++ "_LOCAL") ++ ".jpg"))
          ∈ (process_media "d/photo.jpg" ⟨noAltImg, noFf⟩ false ⟨["d/photo.jpg"]⟩).2.2.1
      ∧ (process_media "d/photo.jpg" ⟨noAltImg, noFf⟩ false ⟨["d/photo.jpg"]⟩).2.2.2
          = ["Cannot use " ++ "d/photo.jpg" ++ " GPS coordinates: " ++ m] :=
  claim_C5 "d/photo.jpg" noAltImg noFf "2024:05:05 18:19:59" ⟨2024, 5, 5, 18, 19, 59⟩
    ⟨["d/photo.jpg"]⟩ rfl rfl rfl (by unfold gpsGroupBad noAltImg validImg; simp)
    rfl (by decide) (by decide)

/-- Claim C7 counterexample, built from the example in the source's own
comment (run.py lines 141-142): a video whose creation_time is
2024-05-12T05:38:26.000000Z was captured at 14:38:26 local time in the
UTC+09:00 zone the com.apple.quicktime.creationdate comment shows; the code
derives the components 2024-05-12 and 05-38-26 directly from the UTC value
and tags the name _UTC, so no conversion to that local zone happened. -/
theorem claim_C7_counterexample :
    ffmpeg_get_information "video.mov" ⟨some "2024-05-12T05:38:26.000000Z"⟩
      = .ok ("2024-05-12_05-38-26_UTC", "2024-05-12", none)
    ∧ timeIsoDashes (localizeUtc 540 ⟨2024, 5, 12, 5, 38, 26⟩) = "14-38-26"
    ∧ ("05-38-26" : String) ≠ "14-38-26" := by
  refine ⟨rfl, rfl, by decide⟩

/-- Claim C7 (amended): for every video whose creation_time matches the UTC
pattern, the date and time components (and the base name, tagged with the
literal _UTC) are derived directly from the parsed UTC timestamp itself; no
conversion to a configured local time zone is applied anywhere. -/
theorem claim_C7_amended (path : String) (info : FfmpegInfo) (y mo d h mi s micro : Nat)
    (hv : validDateTime y mo d h mi s) (hmic : micro < 1000000)
    (hct : info.creation_time = some (ffmpegCreationTimeString y mo d h mi s micro)) :
    ffmpeg_get_information path info
      = .ok (dateIso ⟨y, mo, d, h, mi, s⟩ ++ "_" ++ timeIsoDashes ⟨y, mo, d, h, mi, s⟩
               ++ "_UTC",
             dateIso ⟨y, mo, d, h, mi, s⟩, none) := by
  simp only [ffmpeg_get_information, hct,
    ffmpegStrptime_roundtrip y mo d h mi s micro hv hmic]

/-- Witness for claim C7 (amended) at the source's own example value. -/
theorem claim_C7_witness :
    ffmpeg_get_information "video.mov" ⟨some (ffmpegCreationTimeString 2024 5 12 5 38 26 0)⟩
      = .ok ("2024-05-12_05-38-26_UTC", "2024-05-12", none) :=
  (claim_C7_amended "video.mov" ⟨some (ffmpegCreationTimeString 2024 5 12 5 38 26 0)⟩
    2024 5 12 5 38 26 0 (by decide) (by decide) rfl).trans rfl

/-- The suffix string has as many characters as markers. -/
theorem underscores_length (k : Nat) : (underscores k).length = k := by
  induction k with
  | zero => rfl
  | succ k ih =>
    show (underscores k ++ "_").length = k + 1
    rw [String.length_append, ih]
    rfl

/-- The length of the k-th destination candidate. -/
theorem relocCand_length (dir nm ext : String) (k : Nat) :
    (relocCand dir nm ext k).length
      = dir.length + 1 + (nm.length + k + ext.length) := by
  unfold relocCand joinPath
  rw [String.length_append, String.length_append, String.length_append,
    String.length_append, underscores_length]
  rw [show ("/" : String).length = 1 from rfl]

/-- Distinct suffix counts give distinct candidates. -/
theorem relocCand_inj (dir nm ext : String) {k k' : Nat}
    (h : relocCand dir nm ext k = relocCand dir nm ext k') : k = k' := by
  have := congrArg String.length h
  rw [relocCand_length, relocCand_length] at this
  omega

/-- No candidate equals the output directory itself. -/
theorem relocCand_ne_dir (dir nm ext : String) (k : Nat) :
    relocCand dir nm ext k ≠ dir := by
  intro h
  have := congrArg String.length h
  rw [relocCand_length] at this
  omega

/-- Running the retry loop from suffix count j with the matching remaining
budget: when every candidate from j up to (but excluding) k exists and the
k-th does not, the loop accepts exactly the k-th candidate. -/
theorem findTarget_seq_ok (w : World) (dir nm ext : String) :
    ∀ (f j k : Nat), j + f = MAX_CONFLICT_SUFFIXING → j ≤ k →
    k ≤ MAX_CONFLICT_SUFFIXING →
    (∀ m, j ≤ m → m < k → relocCand dir nm ext m ∈ w.existing) →
    relocCand dir nm ext k ∉ w.existing →
    findTarget w dir ext (nm ++ underscores j) f = .ok (relocCand dir nm ext k) := by
  intro f
  induction f with
  | zero =>
    intro j k hjf hjk hk hmem hfree
    have hmax : MAX_CONFLICT_SUFFIXING = 10 := rfl
    have hkj : k = j := by omega
    subst hkj
    rw [findTarget.eq_def]
    dsimp only
    rw [if_pos (by simp only [pathExists, decide_eq_true_eq]; exact hfree)]
    rfl
  | succ f ih =>
    intro j k hjf hjk hk hmem hfree
    rcases Nat.eq_or_lt_of_le hjk with rfl | hlt
    · rw [findTarget.eq_def]
      dsimp only
      rw [if_pos (by simp only [pathExists, decide_eq_true_eq]; exact hfree)]
      rfl
    · have hjmem := hmem j le_rfl hlt
      rw [findTarget.eq_def]
      dsimp only
      rw [if_neg (by simp only [pathExists, decide_eq_true_eq, not_not]; exact hjmem)]
      have hname : (nm ++ underscores j) ++ "_" = nm ++ underscores (j + 1) := by
        rw [String.append_assoc]
        rfl
      rw [hname]
      exact ih (j + 1) k (by omega) hlt hk (fun m hm1 hm2 => hmem m (by omega) hm2) hfree

/-- Running the retry loop from suffix count j with the matching remaining
budget when every candidate up to MAX_CONFLICT_SUFFIXING exists: the loop
exhausts its budget and raises the target-exists error naming the last
candidate. -/
theorem findTarget_seq_err (w : World) (dir nm ext : String) :
    ∀ (f j : Nat), j + f = MAX_CONFLICT_SUFFIXING →
    (∀ m, j ≤ m → m ≤ MAX_CONFLICT_SUFFIXING → relocCand dir nm ext m ∈ w.existing) →
    findTarget w dir ext (nm ++ underscores j) f
      = .error (.targetExists (relocCand dir nm ext MAX_CONFLICT_SUFFIXING
          ++ " still exists, not trying further prefixing")) := by
  intro f
  induction f with
  | zero =>
    intro j hjf hmem
    have hj : j = MAX_CONFLICT_SUFFIXING := by omega
    subst hj
    rw [findTarget.eq_def]
    dsimp only
    rw [if_neg (by simp only [pathExists, decide_eq_true_eq, not_not]; exact hmem MAX_CONFLICT_SUFFIXING le_rfl le_rfl)]
    rfl
  | succ f ih =>
    intro j hjf hmem
    rw [findTarget.eq_def]
    dsimp only
    rw [if_neg (by simp only [pathExists, decide_eq_true_eq, not_not]; exact hmem j le_rfl (by omega))]
    have hname : (nm ++ underscores j) ++ "_" = nm ++ underscores (j + 1) := by
      rw [String.append_assoc]
      rfl
    rw [hname]
    exact ih (j + 1) (by omega) (fun m hm1 hm2 => hmem m (by omega) hm2)

/-- The directory entry never shadows a candidate. -/
theorem relocCand_mem_cons_dir (dir nm ext : String) (k : Nat) (l : List String) :
    relocCand dir nm ext k ∈ dir :: l ↔ relocCand dir nm ext k ∈ l := by
  rw [List.mem_cons]
  simp [relocCand_ne_dir dir nm ext k]

/-- One relocation step in a colliding sequence: when exactly the candidates
with fewer than j markers exist, the file is placed at the j-marker candidate
and afterwards exactly the candidates with fewer than j + 1 markers exist. -/
theorem reloc_step (dir nm ext src : String) (w : World) (j : Nat)
    (hj : j ≤ MAX_CONFLICT_SUFFIXING)
    (hinv : ∀ k, k ≤ MAX_CONFLICT_SUFFIXING →
      (relocCand dir nm ext k ∈ w.existing ↔ k < j))
    (hsrc : ∀ k, k ≤ MAX_CONFLICT_SUFFIXING → src ≠ relocCand dir nm ext k) :
    ∃ w' e', rename_without_overwrite src nm dir ext false w = (.ok (), w', e')
      ∧ FsEff.rename src (relocCand dir nm ext j) ∈ e'
      ∧ ∀ k, k ≤ MAX_CONFLICT_SUFFIXING →
          (relocCand dir nm ext k ∈ w'.existing ↔ k < j + 1) := by
  have hund0 : nm ++ underscores 0 = nm := by
    show nm ++ "" = nm
    simp
  by_cases hdm : dir ∈ w.existing
  · have hcd : create_directory dir false w = (w, []) := by
      unfold create_directory
      rw [if_neg (by simp), if_pos (by simp [pathExists, hdm])]
    have hft : findTarget w dir ext nm MAX_CONFLICT_SUFFIXING
        = .ok (relocCand dir nm ext j) := by
      have h0 := findTarget_seq_ok w dir nm ext MAX_CONFLICT_SUFFIXING 0 j
        (by omega) (by omega) hj
        (fun m _ hm2 => (hinv m (by omega)).mpr hm2)
        (fun hmem => by have := (hinv j hj).mp hmem; omega)
      rw [hund0] at h0
      exact h0
    have hrf : rename_file src (relocCand dir nm ext j) false w
        = (⟨relocCand dir nm ext j :: w.existing.erase src⟩,
           [.rename src (relocCand dir nm ext j)]) := by
      unfold rename_file
      rw [if_neg (by simp)]
    refine ⟨⟨relocCand dir nm ext j :: w.existing.erase src⟩,
      [.rename src (relocCand dir nm ext j)], ?_, by simp, ?_⟩
    · simp only [rename_without_overwrite, hcd, hft, hrf]
      simp
    · intro k hk
      show relocCand dir nm ext k ∈ relocCand dir nm ext j :: w.existing.erase src ↔ _
      rw [List.mem_cons, List.mem_erase_of_ne (Ne.symm (hsrc k hk)), hinv k hk]
      constructor
      · rintro (h | h)
        · rw [relocCand_inj dir nm ext h]
          omega
        · omega
      · intro h
        rcases Nat.lt_or_ge k j with h2 | h2
        · exact Or.inr h2
        · left
          have hkj : k = j := by omega
          rw [hkj]
  · have hcd : create_directory dir false w = (⟨dir :: w.existing⟩, [.mkdir dir]) := by
      unfold create_directory
      rw [if_neg (by simp), if_neg (by simp [pathExists, hdm])]
    have hft : findTarget (⟨dir :: w.existing⟩ : World) dir ext nm MAX_CONFLICT_SUFFIXING
        = .ok (relocCand dir nm ext j) := by
      have h0 := findTarget_seq_ok ⟨dir :: w.existing⟩ dir nm ext MAX_CONFLICT_SUFFIXING 0 j
        (by omega) (by omega) hj
        (fun m _ hm2 =>
          (relocCand_mem_cons_dir dir nm ext m w.existing).mpr ((hinv m (by omega)).mpr hm2))
        (fun hmem => by
          have := (hinv j hj).mp ((relocCand_mem_cons_dir dir nm ext j w.existing).mp hmem)
          omega)
      rw [hund0] at h0
      exact h0
    have hrf : rename_file src (relocCand dir nm ext j) false (⟨dir :: w.existing⟩ : World)
        = (⟨relocCand dir nm ext j :: (dir :: w.existing).erase src⟩,
           [.rename src (relocCand dir nm ext j)]) := by
      unfold rename_file
      rw [if_neg (by simp)]
    refine ⟨⟨relocCand dir nm ext j :: (dir :: w.existing).erase src⟩,
      .mkdir dir :: [.rename src (relocCand dir nm ext j)], ?_, by simp, ?_⟩
    · simp only [rename_without_overwrite, hcd, hft, hrf]
      simp
    · intro k hk
      show relocCand dir nm ext k
          ∈ relocCand dir nm ext j :: (dir :: w.existing).erase src ↔ _
      rw [List.mem_cons, List.mem_erase_of_ne (Ne.symm (hsrc k hk)),
        relocCand_mem_cons_dir dir nm ext k w.existing, hinv k hk]
      constructor
      · rintro (h | h)
        · rw [relocCand_inj dir nm ext h]
          omega
        · omega
      · intro h
        rcases Nat.lt_or_ge k j with h2 | h2
        · exact Or.inr h2
        · left
          have hkj : k = j := by omega
          rw [hkj]

/-- The relocation attempted once every candidate exists raises the
target-exists error naming the last candidate and performs no rename. -/
theorem reloc_exhausted (dir nm ext src : String) (w : World)
    (hfull : ∀ k, k ≤ MAX_CONFLICT_SUFFIXING → relocCand dir nm ext k ∈ w.existing) :
    ∃ w' e', rename_without_overwrite src nm dir ext false w
        = (.error (.targetExists (relocCand dir nm ext MAX_CONFLICT_SUFFIXING
            ++ " still exists, not trying further prefixing")), w', e')
      ∧ ∀ a b, FsEff.rename a b ∉ e' := by
  have hund0 : nm ++ underscores 0 = nm := by
    show nm ++ "" = nm
    simp
  by_cases hdm : dir ∈ w.existing
  · have hcd : create_directory dir false w = (w, []) := by
      unfold create_directory
      rw [if_neg (by simp), if_pos (by simp [pathExists, hdm])]
    have hft := findTarget_seq_err w dir nm ext MAX_CONFLICT_SUFFIXING 0 (by omega)
      (fun m _ hm2 => hfull m hm2)
    rw [hund0] at hft
    refine ⟨w, [], ?_, by simp⟩
    simp only [rename_without_overwrite, hcd, hft]
  · have hcd : create_directory dir false w = (⟨dir :: w.existing⟩, [.mkdir dir]) := by
      unfold create_directory
      rw [if_neg (by simp), if_neg (by simp [pathExists, hdm])]
    have hft := findTarget_seq_err (⟨dir :: w.existing⟩ : World) dir nm ext
      MAX_CONFLICT_SUFFIXING 0 (by omega)
      (fun m _ hm2 =>
        (relocCand_mem_cons_dir dir nm ext m w.existing).mpr (hfull m hm2))
    rw [hund0] at hft
    refine ⟨⟨dir :: w.existing⟩, [.mkdir dir], ?_, by simp⟩
    simp only [rename_without_overwrite, hcd, hft]

/-- Unfolding one step of relocateSeq. -/
theorem relocateSeq_cons (nm dir ext s : String) (rest : List String) (w : World) :
    relocateSeq nm dir ext (s :: rest) w
      = (((rename_without_overwrite s nm dir ext false w).1,
          (rename_without_overwrite s nm dir ext false w).2.2)
          :: (relocateSeq nm dir ext rest
               (rename_without_overwrite s nm dir ext false w).2.1).1,
         (relocateSeq nm dir ext rest
           (rename_without_overwrite s nm dir ext false w).2.1).2) := rfl

/-- relocateSeq distributes over list append. -/
theorem relocateSeq_append (nm dir ext : String) :
    ∀ (l1 l2 : List String) (w : World),
    relocateSeq nm dir ext (l1 ++ l2) w
      = ((relocateSeq nm dir ext l1 w).1
          ++ (relocateSeq nm dir ext l2 (relocateSeq nm dir ext l1 w).2).1,
         (relocateSeq nm dir ext l2 (relocateSeq nm dir ext l1 w).2).2) := by
  intro l1
  induction l1 with
  | nil =>
    intro l2 w
    simp [relocateSeq]
  | cons s rest ih =>
    intro l2 w
    rw [List.cons_append, relocateSeq_cons, relocateSeq_cons, ih]
    simp

/-- Walking a colliding sequence while candidates remain: every file is
placed, the i-th file of the batch at the (j + i)-marker candidate, and the
final world holds exactly the candidates below j plus the batch. -/
theorem relocateSeq_ok_all (dir nm ext : String) :
    ∀ (srcs : List String) (w : World) (j : Nat),
    j + srcs.length ≤ MAX_CONFLICT_SUFFIXING + 1 →
    (∀ k, k ≤ MAX_CONFLICT_SUFFIXING →
      (relocCand dir nm ext k ∈ w.existing ↔ k < j)) →
    (∀ s ∈ srcs, ∀ k, k ≤ MAX_CONFLICT_SUFFIXING → s ≠ relocCand dir nm ext k) →
    (∀ i, i < srcs.length →
      ((relocateSeq nm dir ext srcs w).1.getD i (.ok (), [])).1 = .ok ()
      ∧ FsEff.rename (srcs.getD i "") (relocCand dir nm ext (j + i))
          ∈ ((relocateSeq nm dir ext srcs w).1.getD i (.ok (), [])).2)
    ∧ (∀ k, k ≤ MAX_CONFLICT_SUFFIXING →
        (relocCand dir nm ext k ∈ (relocateSeq nm dir ext srcs w).2.existing
          ↔ k < j + srcs.length)) := by
  intro srcs
  induction srcs with
  | nil =>
    intro w j _ hinv _
    refine ⟨fun i hi => absurd hi (by simp), ?_⟩
    intro k hk
    simpa using hinv k hk
  | cons s rest ih =>
    intro w j hlen hinv hs
    obtain ⟨w', e', hrw, hmem, hinv'⟩ := reloc_step dir nm ext s w j
      (by simp at hlen; omega) hinv (hs s (by simp))
    have hcons := relocateSeq_cons nm dir ext s rest w
    rw [hrw] at hcons
    obtain ⟨hres, hinvrest⟩ := ih w' (j + 1) (by simp at hlen ⊢; omega) hinv'
      (fun t ht k hk => hs t (by simp [ht]) k hk)
    constructor
    · intro i hi
      cases i with
      | zero =>
        rw [hcons]
        refine ⟨rfl, ?_⟩
        simpa using hmem
      | succ i =>
        rw [hcons]
        have hi' : i < rest.length := by simpa using hi
        have h := hres i hi'
        refine ⟨h.1, ?_⟩
        have harith : j + (i + 1) = j + 1 + i := by omega
        rw [harith]
        simpa using h.2
    · intro k hk
      rw [hcons]
      have h := hinvrest k hk
      have harith : j + 1 + rest.length = j + (s :: rest).length := by simp; omega
      rw [harith] at h
      simpa using h

/-- relocateSeq returns one outcome per source. -/
theorem relocateSeq_length (nm dir ext : String) :
    ∀ (srcs : List String) (w : World),
    (relocateSeq nm dir ext srcs w).1.length = srcs.length := by
  intro srcs
  induction srcs with
  | nil => intro w; rfl
  | cons s rest ih =>
    intro w
    rw [relocateSeq_cons]
    simp [ih]

/-- C1: sequential relocation of files deriving the same destination
directory, base name and extension. The first file of the batch is placed at
the unsuffixed name `<dir>/<name><ext>` and the second at the name with
exactly one suffix marker, `<dir>/<name>_<ext>`. The first file never
collides, so the eleventh COLLIDING file is the twelfth file of the batch
(index 11): by then the unsuffixed candidate and all ten suffixed candidates
exist, the loop gives up after MAX_CONFLICT_SUFFIXING = 10 retries, and that
relocation returns the target-exists error (naming the ten-marker candidate)
without performing any rename. -/
theorem claim_C1 (dir nm ext : String) (srcs : List String) (w : World)
    (hlen : srcs.length = 12)
    (hfree : ∀ k, k ≤ MAX_CONFLICT_SUFFIXING → relocCand dir nm ext k ∉ w.existing)
    (hsrcs : ∀ s ∈ srcs, ∀ k, k ≤ MAX_CONFLICT_SUFFIXING → s ≠ relocCand dir nm ext k) :
    ((relocateSeq nm dir ext srcs w).1.getD 0 (.ok (), [])).1 = .ok ()
    ∧ FsEff.rename (srcs.getD 0 "") (joinPath dir (nm ++ ext))
        ∈ ((relocateSeq nm dir ext srcs w).1.getD 0 (.ok (), [])).2
    ∧ ((relocateSeq nm dir ext srcs w).1.getD 1 (.ok (), [])).1 = .ok ()
    ∧ FsEff.rename (srcs.getD 1 "") (joinPath dir (nm ++ "_" ++ ext))
        ∈ ((relocateSeq nm dir ext srcs w).1.getD 1 (.ok (), [])).2
    ∧ ((relocateSeq nm dir ext srcs w).1.getD 11 (.ok (), [])).1
        = .error (.targetExists (joinPath dir (nm ++ "__________" ++ ext)
            ++ " still exists, not trying further prefixing"))
    ∧ ∀ a b, FsEff.rename a b ∉ ((relocateSeq nm dir ext srcs w).1.getD 11 (.ok (), [])).2 := by
  have hmax : MAX_CONFLICT_SUFFIXING = 10 := rfl
  have htlen : (srcs.take 11).length = 11 := by
    rw [List.length_take, hlen]
    omega
  have hsplit : srcs.take 11 ++ srcs.drop 11 = srcs := List.take_append_drop 11 srcs
  have hdlen : (srcs.drop 11).length = 1 := by
    rw [List.length_drop, hlen]
  obtain ⟨s12, hs12⟩ := List.length_eq_one.mp hdlen
  obtain ⟨hres1, hinv1⟩ := relocateSeq_ok_all dir nm ext (srcs.take 11) w 0
    (by rw [htlen, hmax])
    (fun k hk => iff_of_false (hfree k hk) (by omega))
    (fun s hs k hk => hsrcs s (List.take_subset 11 srcs hs) k hk)
  simp only [htlen] at hinv1
  have hfull : ∀ k, k ≤ MAX_CONFLICT_SUFFIXING →
      relocCand dir nm ext k ∈ (relocateSeq nm dir ext (srcs.take 11) w).2.existing :=
    fun k hk => (hinv1 k hk).mpr (by rw [hmax] at hk; omega)
  obtain ⟨w', e', hrw12, hnorename⟩ := reloc_exhausted dir nm ext s12
    (relocateSeq nm dir ext (srcs.take 11) w).2 hfull
  have h2 : (relocateSeq nm dir ext (srcs.drop 11)
        (relocateSeq nm dir ext (srcs.take 11) w).2).1
      = [(.error (.targetExists (relocCand dir nm ext MAX_CONFLICT_SUFFIXING
          ++ " still exists, not trying further prefixing")), e')] := by
    rw [hs12, relocateSeq_cons, hrw12]
    simp [relocateSeq]
  have hresults : (relocateSeq nm dir ext srcs w).1
      = (relocateSeq nm dir ext (srcs.take 11) w).1
        ++ [(.error (.targetExists (relocCand dir nm ext MAX_CONFLICT_SUFFIXING
            ++ " still exists, not trying further prefixing")), e')] := by
    have happ := relocateSeq_append nm dir ext (srcs.take 11) (srcs.drop 11) w
    rw [hsplit] at happ
    rw [happ]
    dsimp only
    rw [h2]
  have hL1len : (relocateSeq nm dir ext (srcs.take 11) w).1.length = 11 := by
    rw [relocateSeq_length, htlen]
  have hg : ∀ i, i < 11 → (srcs.take 11).getD i "" = srcs.getD i "" := by
    intro i hi
    conv_rhs => rw [← hsplit]
    exact (List.getD_append _ _ _ _ (by rw [htlen]; exact hi)).symm
  have hc0 : relocCand dir nm ext 0 = joinPath dir (nm ++ ext) := by
    unfold relocCand
    rw [show underscores 0 = "" from rfl, String.append_empty]
  have hc1 : relocCand dir nm ext 1 = joinPath dir (nm ++ "_" ++ ext) := rfl
  have hcM : relocCand dir nm ext MAX_CONFLICT_SUFFIXING
      = joinPath dir (nm ++ "__________" ++ ext) := rfl
  refine ⟨?_, ?_, ?_, ?_, ?_, ?_⟩
  · rw [hresults, List.getD_append _ _ _ _ (by rw [hL1len]; omega)]
    exact (hres1 0 (by rw [htlen]; omega)).1
  · rw [hresults, List.getD_append _ _ _ _ (by rw [hL1len]; omega)]
    have h := (hres1 0 (by rw [htlen]; omega)).2
    rw [hg 0 (by omega), hc0] at h
    exact h
  · rw [hresults, List.getD_append _ _ _ _ (by rw [hL1len]; omega)]
    exact (hres1 1 (by rw [htlen]; omega)).1
  · rw [hresults, List.getD_append _ _ _ _ (by rw [hL1len]; omega)]
    have h := (hres1 1 (by rw [htlen]; omega)).2
    rw [hg 1 (by omega), hc1] at h
    exact h
  · rw [hresults, List.getD_append_right _ _ _ _ (by rw [hL1len]), hL1len]
    rw [show (11 - 11 : Nat) = 0 from rfl, List.getD_cons_zero, ← hcM]
  · intro a b
    rw [hresults, List.getD_append_right _ _ _ _ (by rw [hL1len]), hL1len]
    rw [show (11 - 11 : Nat) = 0 from rfl, List.getD_cons_zero]
    exact hnorename a b

/-- Witness for C1: twelve files "s0" .. "s11" all deriving name "n" with
extension ".jpg" into directory "d", starting from an empty world. -/
theorem claim_C1_witness :
    collideBatch.length = 12
    ∧ ((relocateSeq "n" "d" ".jpg" collideBatch ⟨[]⟩).1.getD 0 (.ok (), [])).1 = .ok ()
    ∧ FsEff.rename "s0" (joinPath "d" ("n" ++ ".jpg"))
        ∈ ((relocateSeq "n" "d" ".jpg" collideBatch ⟨[]⟩).1.getD 0 (.ok (), [])).2
    ∧ ((relocateSeq "n" "d" ".jpg" collideBatch ⟨[]⟩).1.getD 1 (.ok (), [])).1 = .ok ()
    ∧ FsEff.rename "s1" (joinPath "d" ("n" ++ "_" ++ ".jpg"))
        ∈ ((relocateSeq "n" "d" ".jpg" collideBatch ⟨[]⟩).1.getD 1 (.ok (), [])).2
    ∧ ((relocateSeq "n" "d" ".jpg" collideBatch ⟨[]⟩).1.getD 11 (.ok (), [])).1
        = .error (.targetExists (joinPath "d" ("n" ++ "__________" ++ ".jpg")
            ++ " still exists, not trying further prefixing")) := by
  have h := claim_C1 "d" "n" ".jpg" collideBatch ⟨[]⟩ (by decide) (by decide) (by decide)
  exact ⟨by decide, h.1, h.2.1, h.2.2.1, h.2.2.2.1, h.2.2.2.2.1⟩

/-- C3: enumeration of a source directory does NOT yield each descendant
file exactly once.  process_directory iterates os.walk (which already visits
the whole tree) and on top of that recurses manually into every yielded
dirs entry, so the contents of each subdirectory are enumerated twice per
nesting level: for the source directory top containing sub/f.jpg, the path
top/sub/f.jpg is submitted to per-file processing twice. -/
theorem claim_C3 :
    process_source (.directory "top" (.dir "top" [] [.dir "sub" ["f.jpg"] []]))
      = ["top/sub/f.jpg", "top/sub/f.jpg"]
    ∧ (process_source
        (.directory "top" (.dir "top" [] [.dir "sub" ["f.jpg"] []]))).count
        "top/sub/f.jpg" = 2 := by
  have h1 : process_directory (joinPath "top" "sub") (.dir "sub" ["f.jpg"] [])
      = ["top/sub/f.jpg"] := by
    rw [process_directory_eq]
    rfl
  have h2 : process_source (.directory "top" (.dir "top" [] [.dir "sub" ["f.jpg"] []]))
      = ["top/sub/f.jpg", "top/sub/f.jpg"] := by
    show process_directory "top" (.dir "top" [] [.dir "sub" ["f.jpg"] []])
      = ["top/sub/f.jpg", "top/sub/f.jpg"]
    rw [process_directory_eq]
    simp only [List.map_nil, List.flatMap_cons, List.flatMap_nil, FsTree.name,
      List.nil_append, List.append_nil, h1]
    rfl
  exact ⟨h2, by rw [h2]; rfl⟩

/-- create_directory does nothing under dry_run. -/
theorem create_directory_dry (p : String) (w : World) :
    create_directory p true w = (w, []) := by
  unfold create_directory
  rw [if_pos rfl]

/-- rename_file does nothing under dry_run. -/
theorem rename_file_dry (s d : String) (w : World) :
    rename_file s d true w = (w, []) := by
  unfold rename_file
  rw [if_pos rfl]

/-- delete_file does nothing under dry_run. -/
theorem delete_file_dry (p : String) (w : World) :
    delete_file p true w = (w, []) := by
  unfold delete_file
  rw [if_pos rfl]

/-- Under dry_run, rename_without_overwrite leaves the world unchanged and
emits no effect at all. -/
theorem rename_dry_eff (p nn od ex : String) (w : World) :
    (rename_without_overwrite p nn od ex true w).2.2 = []
    ∧ (rename_without_overwrite p nn od ex true w).2.1 = w := by
  unfold rename_without_overwrite
  rw [create_directory_dry]
  dsimp only
  cases hft : findTarget w od ex nn MAX_CONFLICT_SUFFIXING with
  | error e => exact ⟨rfl, rfl⟩
  | ok np =>
    dsimp only
    rw [rename_file_dry]
    exact ⟨rfl, rfl⟩

/-- Under dry_run, a successful wand_transform_image returns the original
path, the unchanged world and no effect. -/
theorem wand_dry (path fmt np p2 : String) (w w2 : World) (e2 : List FsEff)
    (h : wand_transform_image path fmt np true w = .ok (p2, w2, e2)) :
    p2 = path ∧ w2 = w ∧ e2 = [] := by
  unfold wand_transform_image at h
  split at h
  · exact absurd h (by simp)
  · rw [if_pos rfl, Except.ok.injEq, Prod.mk.injEq, Prod.mk.injEq] at h
    exact ⟨h.1.symm, h.2.1.symm, h.2.2.symm⟩

/-- Under dry_run, the optional conversion step never emits an effect. -/
theorem transform_step_dry (c : Prop) [Decidable c] (path np p2 : String)
    (w w2 : World) (e2 : List FsEff)
    (h : (if c then wand_transform_image path TARGET_IMAGEMAGICK_FORMAT np true w
          else .ok (path, w, [])) = .ok (p2, w2, e2)) : e2 = [] := by
  split at h
  · exact (wand_dry _ _ _ _ _ _ _ h).2.2
  · rw [Except.ok.injEq, Prod.mk.injEq, Prod.mk.injEq] at h
    exact h.2.2.symm

/-- Under dry_run, process_media performs only the read-only metadata
effects: nothing in its trace mutates the filesystem. -/
theorem process_media_dry_no_mut (path : String) (meta : FileMeta) (w : World) :
    ∀ e ∈ (process_media path meta true w).2.2.1, e.isMutation = false := by
  simp only [process_media]
  split
  · rw [delete_file_dry]
    simp
  · split
    · simp
    · rename_i path2 w2 e2 heq
      have he2 : e2 = [] := transform_step_dry _ _ _ _ _ _ _ heq
      subst he2
      split
      · rename_i ebad w3 e3 warns heqA
        split at heqA
        · split at heqA
          · rw [Prod.mk.injEq, Prod.mk.injEq, Prod.mk.injEq] at heqA
            rw [← heqA.2.2.1]
            intro x hx
            rcases List.mem_append.mp hx with h | h
            · exact absurd h (List.not_mem_nil x)
            · rcases List.mem_cons.mp h with h | h
              · rw [h]; rfl
              · exact absurd h (List.not_mem_nil x)
          · rename_i nn od gps ws heqR
            split at heqA
            · rename_i exc w3x e3x heqR2
              have hre : e3x = [] := by
                have h0 := (rename_dry_eff path2 nn od
                  (pyLower (splitext (basename path2)).2) w2).1
                rw [heqR2] at h0
                exact h0
              rw [Prod.mk.injEq, Prod.mk.injEq, Prod.mk.injEq] at heqA
              rw [← heqA.2.2.1]
              intro x hx
              rcases List.mem_append.mp hx with h | h
              · exact absurd h (List.not_mem_nil x)
              · rcases List.mem_cons.mp h with h | h
                · rw [h]; rfl
                · rw [hre] at h; exact absurd h (List.not_mem_nil x)
            · rename_i u w3x e3x heqR2
              exact absurd heqA (by simp)
        · rw [Prod.mk.injEq, Prod.mk.injEq, Prod.mk.injEq] at heqA
          exact absurd heqA.1 (by simp)
      · rename_i gps1 w3 e3 warns heqA
        have he3 : ∀ x ∈ e3, x.isMutation = false := by
          split at heqA
          · split at heqA
            · exact absurd heqA (by simp)
            · rename_i nn od gps ws heqR
              split at heqA
              · rename_i exc w3x e3x heqR2
                exact absurd heqA (by simp)
              · rename_i u w3x e3x heqR2
                have hre : e3x = [] := by
                  have h0 := (rename_dry_eff path2 nn od
                    (pyLower (splitext (basename path2)).2) w2).1
                  rw [heqR2] at h0
                  exact h0
                rw [Prod.mk.injEq, Prod.mk.injEq, Prod.mk.injEq] at heqA
                rw [← heqA.2.2.1]
                intro x hx
                rcases List.mem_cons.mp hx with h | h
                · rw [h]; rfl
                · rw [hre] at h; exact absurd h (List.not_mem_nil x)
          · rw [Prod.mk.injEq, Prod.mk.injEq, Prod.mk.injEq] at heqA
            rw [← heqA.2.2.1]
            intro x hx
            exact absurd hx (List.not_mem_nil x)
        split
        · split
          · intro x hx
            rcases List.mem_append.mp hx with h | h
            · rcases List.mem_append.mp h with h | h
              · exact absurd h (List.not_mem_nil x)
              · exact he3 x h
            · rcases List.mem_cons.mp h with h | h
              · rw [h]; rfl
              · exact absurd h (List.not_mem_nil x)
          · rename_i nn2 od2 gps2 heqF
            split
            · rename_i exc2 w4 e4 heqR2
              have hre : e4 = [] := by
                have h0 := (rename_dry_eff path2 nn2 od2
                  (pyLower (splitext (basename path2)).2) w3).1
                rw [heqR2] at h0
                exact h0
              intro x hx
              rcases List.mem_append.mp hx with h | h
              · rcases List.mem_append.mp h with h | h
                · exact absurd h (List.not_mem_nil x)
                · exact he3 x h
              · rcases List.mem_cons.mp h with h | h
                · rw [h]; rfl
                · rw [hre] at h; exact absurd h (List.not_mem_nil x)
            · rename_i u2 w4 e4 heqR2
              have hre : e4 = [] := by
                have h0 := (rename_dry_eff path2 nn2 od2
                  (pyLower (splitext (basename path2)).2) w3).1
                rw [heqR2] at h0
                exact h0
              intro x hx
              rcases List.mem_append.mp hx with h | h
              · rcases List.mem_append.mp h with h | h
                · exact absurd h (List.not_mem_nil x)
                · exact he3 x h
              · rcases List.mem_cons.mp h with h | h
                · rw [h]; rfl
                · rw [hre] at h; exact absurd h (List.not_mem_nil x)
        · intro x hx
          rcases List.mem_append.mp hx with h | h
          · exact absurd h (List.not_mem_nil x)
          · exact he3 x h

/-- Under dry_run, try_process_file emits no mutating effect. -/
theorem try_process_file_dry_no_mut (p : String) (m : FileMeta) (w : World) :
    ∀ e ∈ (try_process_file p m true w).2.2.1, e.isMutation = false := by
  intro e he
  unfold try_process_file at he
  split at he
  · rename_i g w1 e1 warns heq
    have h := process_media_dry_no_mut p m w
    rw [heq] at h
    exact h e he
  · rename_i exc w1 e1 warns heq
    have h := process_media_dry_no_mut p m w
    rw [heq] at h
    split at he
    · exact h e he
    · exact h e he

/-- Under dry_run, the whole per-file processing pass emits no mutating
effect. -/
theorem processFiles_dry_no_mut (files : List (String × FileMeta)) :
    ∀ (w : World), ∀ e ∈ (processFiles true files w).2.2.1, e.isMutation = false := by
  induction files with
  | nil =>
    intro w e he
    exact absurd he (List.not_mem_nil e)
  | cons pm rest ih =>
    intro w e he
    obtain ⟨p, m⟩ := pm
    rw [processFiles] at he
    split at he
    · rename_i g w1 e1 warns1 heq1
      split at he
      · rename_i gs w2 e2 warns2 heq2
        rcases List.mem_append.mp he with h | h
        · have hh := try_process_file_dry_no_mut p m w
          rw [heq1] at hh
          exact hh e h
        · have hh := ih w1
          rw [heq2] at hh
          exact hh e h
      · rename_i exc w2 e2 warns2 heq2
        rcases List.mem_append.mp he with h | h
        · have hh := try_process_file_dry_no_mut p m w
          rw [heq1] at hh
          exact hh e h
        · have hh := ih w1
          rw [heq2] at hh
          exact hh e h
    · rename_i exc w1 e1 warns1 heq1
      have hh := try_process_file_dry_no_mut p m w
      rw [heq1] at hh
      exact hh e he

/-- C9 counterexample: a dry run over the single normalizable image
pix/a.heic.  The dry run still mutates the filesystem - its effect trace is
exactly the unconditional write of trace.gpx, and writeTrace is a mutation -
so dry-run does NOT produce zero filesystem mutations; and it does not
exercise the metadata path as a real run would: the real run reads the EXIF
data of the converted image pix/a.jpg while the dry run reads no EXIF data
at all (the conversion is skipped, the path keeps its .heic extension and
the exif branch is never entered). -/
theorem claim_C9_counterexample :
    (run [("pix/a.heic", validMeta)] true ⟨["pix/a.heic"]⟩).2.2.1
      = [FsEff.writeTrace "trace.gpx"]
    ∧ (FsEff.writeTrace "trace.gpx").isMutation = true
    ∧ FsEff.readExif "pix/a.jpg"
        ∈ (run [("pix/a.heic", validMeta)] false ⟨["pix/a.heic"]⟩).2.2.1
    ∧ FsEff.readExif "pix/a.jpg"
        ∉ (run [("pix/a.heic", validMeta)] true ⟨["pix/a.heic"]⟩).2.2.1 := by
  refine ⟨by decide, rfl, by decide, by decide⟩

/-- C9 amended: under dry_run the per-file processing pass emits no
filesystem mutation whatsoever (no delete, no conversion, no mkdir, no
rename), but the run as a whole is not mutation-free: whenever the per-file
pass completes, run still unconditionally writes the GPX trace file, so the
mutations of a completed dry run are exactly the single write of
TRACE_GPX. -/
theorem claim_C9_amended (files : List (String × FileMeta)) (w : World) :
    (processFiles true files w).2.2.1.filter FsEff.isMutation = []
    ∧ (∀ gs w1 e1 warns, processFiles true files w = (.ok gs, w1, e1, warns) →
        (run files true w).2.2.1.filter FsEff.isMutation
          = [FsEff.writeTrace TRACE_GPX]) := by
  have hnil : (processFiles true files w).2.2.1.filter FsEff.isMutation = [] := by
    rw [List.filter_eq_nil_iff]
    intro a ha
    rw [processFiles_dry_no_mut files w a ha]
    exact Bool.false_ne_true
  refine ⟨hnil, ?_⟩
  intro gs w1 e1 warns hpf
  have he1 : e1.filter FsEff.isMutation = [] := by
    rw [hpf] at hnil
    exact hnil
  simp only [run, hpf, write_gpx_trace]
  rw [List.filter_append, he1]
  rfl

/-- Witness for the amended C9 at the dry run over pix/a.heic. -/
theorem claim_C9_witness :
    (processFiles true [("pix/a.heic", validMeta)] ⟨["pix/a.heic"]⟩).2.2.1.filter
        FsEff.isMutation = []
    ∧ (run [("pix/a.heic", validMeta)] true ⟨["pix/a.heic"]⟩).2.2.1.filter
        FsEff.isMutation = [FsEff.writeTrace TRACE_GPX] := by
  have h := claim_C9_amended [("pix/a.heic", validMeta)] ⟨["pix/a.heic"]⟩
  exact ⟨h.1, h.2 [none] ⟨["pix/a.heic"]⟩ [] [] (by decide)⟩

end CameraRoll
